import Mathlib

/-!
Verification of the TOEIC mock-test generator (`toeic_generator.py`) and the
Dash quiz front-end (`app.py`) of the AIGenerateTOEICMockTestApp repository.

The Python code is shallowly embedded as executable Lean definitions:

* `random.Random` is modelled by `RNG`: a deterministic stream of words
  (`stream : Nat → Nat`) together with a position.  Every draw the library
  makes (`shuffle`, `choice`, `randrange`) consumes one stream word; a draw
  bounded by `n` is the word reduced `% n` (standing in for CPython's
  `_randbelow` rejection sampling).  Theorems quantify over all streams, so
  they cover every sequence of draws the real Mersenne-Twister generator can
  produce; `rngOfSeed` is a concrete stand-in for seeding, and no theorem
  below depends on particular stream values.
* `rng.shuffle` is the in-place Fisher–Yates loop of CPython's
  `random.shuffle` (`for i in reversed(range(1, len(x))): j = randbelow(i+1);
  swap x i j`), embedded as `shuffle` on `List Nat` (the code only ever
  shuffles index lists).
* Python dicts that carry a fixed set of keys become structures; keys that
  are only sometimes present become `Option` fields or fields with the
  dict-absent default.  Python `str` is `String`; the single-letter answer
  strings are `Char`.
* `datetime.date.today()` is an explicit `today : String` parameter of
  `generate_dataset`: the embedding makes the generator's one hidden input
  visible.
-/

set_option maxRecDepth 16384

namespace Toeic

/-- Deterministic model of a `random.Random` instance: a word stream plus the
current position in it. -/
structure RNG where
  stream : Nat → Nat
  pos : Nat

/-- Draw the next raw word from the generator. -/
def RNG.next (r : RNG) : Nat × RNG :=
  (r.stream r.pos, ⟨r.stream, r.pos + 1⟩)

/-- Model of `Random._randbelow n`: a draw reduced into `[0, n)` (for `n > 0`),
consuming one stream word. -/
def randbelow (n : Nat) (r : RNG) : Nat × RNG :=
  let (v, r') := r.next
  (v % n, r')

/-- Model of `random.choice(seq)`: `seq[randbelow(len(seq))]`.  Python raises
`IndexError` on an empty sequence; the embedding takes an explicit default
that is never used at any call site (all banks are non-empty). -/
def choice {α : Type} (l : List α) (dfl : α) (r : RNG) : α × RNG :=
  let (j, r') := randbelow l.length r
  (l.getD j dfl, r')

/-- Model of `random.randrange(lo, hi)` (used only for Part 6 group ids). -/
def randrange (lo hi : Nat) (r : RNG) : Nat × RNG :=
  let (v, r') := r.next
  (lo + v % (hi - lo), r')

/-- The simultaneous assignment `x[i], x[j] = x[j], x[i]` of CPython's
`random.shuffle` inner loop, on an index list. -/
def listSwap (l : List Nat) (i j : Nat) : List Nat :=
  (l.set i (l.getD j 0)).set j (l.getD i 0)

/-- The loop of CPython `random.shuffle`: counter `i` runs down from
`len(x) - 1` to `1`; each step draws `j = randbelow(i+1)` and swaps. -/
def shuffleAux : List Nat → RNG → Nat → List Nat × RNG
  | l, r, 0 => (l, r)
  | l, r, Nat.succ n =>
    let (j, r') := randbelow (n + 2) r
    shuffleAux (listSwap l (n + 1) j) r' n

/-- Model of `rng.shuffle(x)` for a list of indices. -/
def shuffle (l : List Nat) (r : RNG) : List Nat × RNG :=
  shuffleAux l r (l.length - 1)

/-- String of a single character (the f-string conversion `f"{letter}"`). -/
def charStr (c : Char) : String := ⟨[c]⟩

/-- The letter `chr(ord('A') + i)`. -/
def letterOfIdx (i : Nat) : Char := Char.ofNat (65 + i)

/-- The f-string `f"{letter}. {text}"` of `_label_options`. -/
def labelStr (c : Char) (text : String) : String :=
  charStr c ++ ". " ++ text

/-- Leading character of an option string (`opt_text[0]` in the front-ends). -/
def leadingChar (s : String) : Char := s.data.headD '?'

/-- Body of the `for i, idx in enumerate(idxs)` loop of `_label_options`:
append `f"{letter}. {text}"` and update the answer letter whenever
`idx == correct_index`. -/
def labelLoop (opts : List String) (correct : Nat) :
    List Nat → Nat → List String × Char → List String × Char
  | [], _, acc => acc
  | idx :: rest, i, (labeled, ans) =>
    let letter := letterOfIdx i
    let text := opts.getD idx ""
    labelLoop opts correct rest (i + 1)
      (labeled ++ [labelStr letter text], if idx = correct then letter else ans)

/-- Model of `toeic_generator._label_options`: shuffle the index list of the plain
options, label the shuffled options `A.`, `B.`, …, and report the letter now
marking the formerly-correct option (initialised to `"A"`). -/
def labelOptions (optionsPlain : List String) (correctIndex : Nat) (rng : RNG) :
    (List String × Char) × RNG :=
  let (idxs, rng') := shuffle (List.range optionsPlain.length) rng
  (labelLoop optionsPlain correctIndex idxs 0 ([], 'A'), rng')

/-- The labeled list built by the loop, as a standalone recursion. -/
def buildLabeled (opts : List String) : List Nat → Nat → List String
  | [], _ => []
  | idx :: rest, i => labelStr (letterOfIdx i) (opts.getD idx "") :: buildLabeled opts rest (i + 1)

/-- The final answer letter computed by the loop. -/
def lastAnswer (correct : Nat) : List Nat → Nat → Char → Char
  | [], _, a => a
  | idx :: rest, i, a =>
    lastAnswer correct rest (i + 1) (if idx = correct then letterOfIdx i else a)

/-! ### Python string primitives used by the generator -/

/-- Model of `s.startswith(p)`. -/
def strStartsWith (s p : String) : Bool := p.data.isPrefixOf s.data

/-- Model of `sub in s` (substring containment). -/
def strContains (s sub : String) : Bool := decide (sub.data <:+: s.data)

/-- Model of `s.lower()` (the domain keys are ASCII). -/
def strLower (s : String) : String := ⟨s.data.map Char.toLower⟩

/-! ### `_domain_lex`: the Lexicon Resolver -/

/-- The lexicon bundle returned by `_domain_lex`. -/
structure Lex where
  nouns : List String
  depts : List String
  companies : List String
  ad_item : String
deriving DecidableEq

/-- The `conf` default bundle of `_domain_lex`. -/
def confLex : Lex :=
  { nouns := ["report", "proposal", "contract", "shipment", "agenda", "policy"]
    depts := ["finance", "HR", "marketing", "IT", "operations"]
    companies := ["our company", "the vendor", "the client", "the committee", "the department"]
    ad_item := "membership" }

/-- The `table` of `_domain_lex`, as a key/bundle association list.  Every
entry carries all four fields, so `conf.update(table[d])` replaces the whole
bundle. -/
def lexTable : List (String × Lex) :=
  [ ("it",
     { nouns := ["report", "ticket", "deployment", "release notes", "specification"]
       depts := ["IT", "QA", "security", "platform", "infrastructure"]
       companies := ["our team", "the vendor", "the client", "the committee", "the department"]
       ad_item := "cloud backup plan" }),
    ("manufacturing",
     { nouns := ["report", "proposal", "assembly plan", "maintenance log", "inspection record"]
       depts := ["production", "quality", "engineering", "logistics", "procurement"]
       companies := ["our factory", "the supplier", "the plant", "the committee", "the department"]
       ad_item := "maintenance toolkit" }),
    ("logistics",
     { nouns := ["shipment", "manifest", "waybill", "delivery schedule", "inventory report"]
       depts := ["operations", "dispatch", "warehouse", "customs", "fleet"]
       companies := ["our company", "the carrier", "the client", "the warehouse", "the department"]
       ad_item := "express delivery option" }),
    ("medical",
     { nouns := ["report", "consent form", "survey", "schedule", "policy"]
       depts := ["administration", "nursing", "billing", "pharmacy", "radiology"]
       companies := ["our clinic", "the hospital", "the lab", "the committee", "the department"]
       ad_item := "health screening package" }),
    ("finance",
     { nouns := ["invoice", "balance sheet", "statement", "budget", "ledger"]
       depts := ["accounting", "audit", "treasury", "compliance", "finance"]
       companies := ["our firm", "the client", "the bank", "the auditor", "the department"]
       ad_item := "small-business loan consultation" }),
    ("hr",
     { nouns := ["policy", "timesheet", "benefits form", "onboarding packet", "schedule"]
       depts := ["HR", "recruiting", "training", "payroll", "compliance"]
       companies := ["our HR team", "the recruiter", "the applicant", "the manager", "the department"]
       ad_item := "employee wellness program" }),
    ("marketing",
     { nouns := ["campaign brief", "press kit", "ad copy", "media plan", "newsletter"]
       depts := ["marketing", "PR", "design", "sales", "digital"]
       companies := ["our agency", "the client", "the sponsor", "the committee", "the department"]
       ad_item := "social media analytics suite" }),
    ("education",
     { nouns := ["syllabus", "schedule", "registration form", "survey", "policy"]
       depts := ["admissions", "student affairs", "faculty", "library", "IT"]
       companies := ["our school", "the university", "the department", "the committee", "the registrar"]
       ad_item := "online course bundle" }),
    ("hospitality",
     { nouns := ["reservation", "menu", "event order", "invoice", "policy"]
       depts := ["front desk", "housekeeping", "banquet", "kitchen", "sales"]
       companies := ["our hotel", "the restaurant", "the venue", "the concierge", "the department"]
       ad_item := "seasonal dining plan" }),
    ("retail",
     { nouns := ["inventory report", "price list", "return policy", "promotion", "invoice"]
       depts := ["store operations", "merchandising", "customer service", "logistics", "marketing"]
       companies := ["our store", "the supplier", "the warehouse", "the brand", "the department"]
       ad_item := "loyalty membership" }),
    ("realestate",
     { nouns := ["lease", "inspection report", "listing", "schedule", "policy"]
       depts := ["property", "leasing", "sales", "maintenance", "compliance"]
       companies := ["our agency", "the landlord", "the tenant", "the committee", "the department"]
       ad_item := "open house tour" }),
    ("energy",
     { nouns := ["maintenance log", "outage notice", "safety record", "inspection report", "proposal"]
       depts := ["operations", "maintenance", "safety", "compliance", "engineering"]
       companies := ["our utility", "the plant", "the contractor", "the committee", "the department"]
       ad_item := "home energy audit" }),
    ("legal",
     { nouns := ["contract", "brief", "case file", "policy", "notice"]
       depts := ["legal", "compliance", "litigation", "IP", "risk"]
       companies := ["our firm", "the client", "the court", "the committee", "the department"]
       ad_item := "contract review service" }),
    ("public",
     { nouns := ["notice", "agenda", "public comment", "policy", "survey"]
       depts := ["city council", "planning", "public works", "transport", "parks"]
       companies := ["the city", "the county", "the agency", "the board", "the department"]
       ad_item := "community workshop" }),
    ("aviation",
     { nouns := ["itinerary", "boarding pass", "notice", "schedule", "policy"]
       depts := ["operations", "ground staff", "security", "maintenance", "customer service"]
       companies := ["our airline", "the airport", "the carrier", "the authority", "the department"]
       ad_item := "priority boarding option" }),
    ("food",
     { nouns := ["menu", "invoice", "reservation", "order", "policy"]
       depts := ["kitchen", "service", "banquet", "procurement", "marketing"]
       companies := ["our cafe", "the restaurant", "the supplier", "the committee", "the department"]
       ad_item := "meal subscription plan" }),
    ("construction",
     { nouns := ["inspection report", "work order", "proposal", "schedule", "permit"]
       depts := ["site", "engineering", "procurement", "safety", "logistics"]
       companies := ["our contractor", "the client", "the vendor", "the council", "the department"]
       ad_item := "equipment rental package" }),
    ("ecommerce",
     { nouns := ["order", "return label", "invoice", "promotion", "inventory"]
       depts := ["fulfillment", "customer support", "marketing", "IT", "analytics"]
       companies := ["our shop", "the marketplace", "the seller", "the brand", "the department"]
       ad_item := "free shipping upgrade" }),
    ("support",
     { nouns := ["ticket", "knowledge base", "policy", "survey", "SLA"]
       depts := ["support", "success", "training", "QA", "IT"]
       companies := ["our support team", "the client", "the vendor", "the department", "the committee"]
       ad_item := "premium support plan" }) ]

/-- Model of `_domain_lex(domain)`: lower-case the (possibly absent) domain tag, look
it up in the table, and fall back to the default bundle. -/
def domainLex (domain : Option String) : Lex :=
  let d := strLower (domain.getD "")
  match lexTable.lookup d with
  | some lex => lex
  | none => confLex

/-- All bundles `_domain_lex` can return. -/
def allLexica : List Lex := confLex :: lexTable.map Prod.snd

/-! ### Data model: Question / PartBlock / Dataset -/

/-- The `context` dict of a Question.  Keys that a given part never sets keep
the dict-absent default. -/
structure Ctx where
  text : Option String := none
  passage : Option String := none
  multiBlanks : Bool := false
  blankCount : Nat := 0
  blankIndex : Nat := 0
  blankOptionsLabeled : List (List String) := []
  blankAnswerLetters : List Char := []
  blankNotes : List String := []
  groupId : Option String := none
deriving DecidableEq

/-- A generated question record. -/
structure Question where
  id : String
  stem : Option String := none
  context : Option Ctx := none
  options : List String
  answer : Char
  explanationJa : String
deriving DecidableEq

/-- A part block of the dataset. -/
structure PartBlock where
  part : Int
  name : String
  instructions : String
  questions : List Question
deriving DecidableEq

/-- The dataset envelope returned by `generate_dataset`. -/
structure Dataset where
  title : String
  version : String
  language : String
  explanationsLanguage : String
  createdAt : String
  parts : List PartBlock
  metadataNoteJa : String
deriving DecidableEq

/-- The `(stem-or-text, options, correct index, note)` tuple returned by a
Part 5/6 archetype function. -/
structure StemOut where
  stem : String
  opts : List String
  correctIdx : Nat
  note : String
deriving DecidableEq

/-! ### Part 5: Incomplete Sentences (`gen_part5`) -/

/-- The 24 archetype functions of `gen_part5`, one constructor per Python
local function, in source order. -/
inductive P5Arch
  | p5_preposition
  | p5_verb_form
  | p5_conjunction
  | p5_collocation
  | p5_comparative
  | p5_quantifiers
  | p5_time_prep
  | p5_phrasal_verb
  | p5_as_as
  | p5_pronoun_agreement
  | p5_subjunctive
  | p5_passive
  | p5_word_family
  | p5_relative_pronoun
  | p5_inversion
  | p5_parallelism
  | p5_articles
  | p5_count_uncount
  | p5_fewer_less
  | p5_conditional_third
  | p5_reported_speech
  | p5_adj_order
  | p5_infinitive_after_adj
  | p5_collocation_take_note
deriving DecidableEq

/-- Run one Part 5 archetype.  `lex` holds the `nouns`/`depts` lists that the
enclosing `gen_part5` resolved through `_domain_lex(domain)`. -/
def p5Run (a : P5Arch) (lex : Lex) (r : RNG) : StemOut × RNG :=
  match a with
  | .p5_preposition =>
    let (obj, r') := choice ["the online portal", "email", "the company website", "the shared drive"] "" r
    (⟨"Employees are encouraged to submit feedback ______ " ++ obj ++ ".",
      ["through", "among", "across", "under"], 0,
      "空所には前置詞が入ります。『〜を通じて』は through を用います。among は『〜の間で（複数の中で）』、across は『〜の横断・一面に』、under は『〜の下に』で文脈に合いません。"⟩, r')
  | .p5_verb_form =>
    let (n, r') := choice lex.nouns "" r
    (⟨"The manager approved the " ++ n ++ " after carefully ______ the costs.",
      ["evaluating", "evaluated", "evaluation", "evaluates"], 0,
      "after は接続詞として用いると，後ろは動名詞（〜ing）を伴うのが自然です。carefully evaluating が適切。"⟩, r')
  | .p5_conjunction =>
    (⟨"Our sales have increased steadily, ______ our market share remains small.",
      ["although", "because", "unless", "so"], 0,
      "対立関係なので譲歩の although を用います。"⟩, r)
  | .p5_collocation =>
    let (d, r') := choice lex.depts "" r
    (⟨"Please ______ the attached form to the " ++ d ++ " department by Friday.",
      ["submit", "repair", "cancel", "extend"], 0,
      "書類は部署に『提出する』= submit がコロケーションとして自然です。"⟩, r')
  | .p5_comparative =>
    (⟨"This model is ______ than the previous version, making it ideal for travel.",
      ["lighter", "lightest", "more light", "light"], 0,
      "比較級 than に合わせて lighter を選びます。"⟩, r)
  | .p5_quantifiers =>
    (⟨"There are ______ opportunities for advancement in this department.",
      ["a few", "few", "little", "a little"], 0,
      "opportunities は可算名詞複数なので a few（少しはある）が最適。few は『ほとんどない』、little/a little は不可算向け。"⟩, r)
  | .p5_time_prep =>
    (⟨"The system will be down ______ two hours for maintenance.",
      ["for", "since", "during", "at"], 0,
      "継続時間には for を用います。during は期間の中での出来事を述べる際に用いられます。"⟩, r)
  | .p5_phrasal_verb =>
    (⟨"Due to scheduling conflicts, we\u0027ll ______ the meeting to next week.",
      ["put off", "take off", "set off", "turn off"], 0,
      "延期する＝ put off。take off は離陸/脱ぐ、set off は出発する、turn off は電源を切る。"⟩, r)
  | .p5_as_as =>
    (⟨"The new printer is as ______ as the old one.",
      ["fast", "fastly", "faster", "more fast"], 0,
      "as + 形容詞 + as の比較。形容詞は fast。fastly は不可、faster/more fast は比較級で文に合わない。"⟩, r)
  | .p5_pronoun_agreement =>
    (⟨"Each of the employees ______ responsible for safety training.",
      ["is", "are", "be", "were"], 0,
      "Each of + 複数名詞 でも動詞は単数 is をとる。"⟩, r)
  | .p5_subjunctive =>
    (⟨"It is essential that every member ______ the orientation on time.",
      ["complete", "completes", "completed", "will complete"], 0,
      "that 節内で原形（仮定法現在）complete を用いる。"⟩, r)
  | .p5_passive =>
    let (n, r') := choice lex.nouns "" r
    (⟨"The " ++ n ++ " ______ by the end of the day.",
      ["must be submitted", "must submit", "must be submitting", "must have submit"], 0,
      "提出されなければならない＝受動 must be submitted。"⟩, r')
  | .p5_word_family =>
    (⟨"We need an ______ solution to reduce overall costs.",
      ["economical", "economic", "economics", "economically"], 0,
      "形容詞『経済的な（節約的な）』は economical。economic は『経済の』、economics は学問名、economically は副詞。"⟩, r)
  | .p5_relative_pronoun =>
    (⟨"The report, ______ was finalized yesterday, will be shared with all staff.",
      ["which", "that", "who", "whom"], 0,
      "非制限用法（カンマあり）では which を用いる。that は不可。"⟩, r)
  | .p5_inversion =>
    (⟨"Only after the audit ______ the errors become apparent.",
      ["did", "do", "does", "had"], 0,
      "Only + 副詞句 が文頭に来ると倒置（助動詞 do の過去 did）。"⟩, r)
  | .p5_parallelism =>
    (⟨"The position requires managing budgets, coordinating schedules, and ______.",
      ["communicating with stakeholders", "to communicate with stakeholders",
       "communication with stakeholders", "communicate with stakeholders"], 0,
      "並列構造は -ing で統一：communicating が自然。"⟩, r)
  | .p5_articles =>
    (⟨"He is ______ experienced engineer.",
      ["an", "a", "the", "(no article)"], 0,
      "母音音で始まる experienced の前は an。"⟩, r)
  | .p5_count_uncount =>
    (⟨"We need more ______ to complete the project.",
      ["equipment", "equipments", "equipmentes", "equipments are"], 0,
      "equipment は不可算名詞で複数形にしない。"⟩, r)
  | .p5_fewer_less =>
    (⟨"We have ______ resources than last quarter.",
      ["fewer", "less", "little", "few"], 0,
      "resources は可算複数 → fewer を用いる。"⟩, r)
  | .p5_conditional_third =>
    (⟨"If he ______ the report earlier, we could have fixed the issue.",
      ["had sent", "sent", "has sent", "would send"], 0,
      "仮定法過去完了（過去の事実に反する仮定）→ had + p.p."⟩, r)
  | .p5_reported_speech =>
    (⟨"She said she ______ the files by noon.",
      ["would send", "will send", "sends", "is sending"], 0,
      "時制の一致で would + 動詞の原形。"⟩, r)
  | .p5_adj_order =>
    (⟨"She bought a ______ laptop for travel.",
      ["lightweight new", "new lightweight", "new and lightweight", "lightweight of new"], 1,
      "形容詞の語順：意見（new）→ 性質（lightweight）→ 名詞。『new lightweight』が自然。"⟩, r)
  | .p5_infinitive_after_adj =>
    (⟨"The task is easy ______.",
      ["to complete", "completing", "to completing", "completed"], 0,
      "形容詞 + to 不定詞。easy to complete。"⟩, r)
  | .p5_collocation_take_note =>
    (⟨"Please take ______ of the new safety guidelines.",
      ["note", "notes", "a note", "noting"], 0,
      "慣用表現：take note of（〜に留意する）。"⟩, r)

/-- The `pattern_funcs` list of `gen_part5`, in source order. -/
def p5FullPool : List P5Arch :=
  [ .p5_preposition, .p5_verb_form, .p5_conjunction, .p5_collocation,
    .p5_comparative, .p5_quantifiers, .p5_time_prep, .p5_phrasal_verb,
    .p5_as_as, .p5_pronoun_agreement, .p5_subjunctive, .p5_passive,
    .p5_word_family, .p5_relative_pronoun, .p5_inversion, .p5_parallelism,
    .p5_articles, .p5_count_uncount, .p5_fewer_less, .p5_conditional_third,
    .p5_reported_speech, .p5_adj_order, .p5_infinitive_after_adj,
    .p5_collocation_take_note ]

/-- The restricted pool assigned when `difficulty == "hard"`. -/
def p5HardPool : List P5Arch :=
  [ .p5_verb_form, .p5_conjunction, .p5_subjunctive, .p5_passive,
    .p5_word_family, .p5_pronoun_agreement, .p5_comparative, .p5_preposition ]

/-- The archetype pool `gen_part5` actually draws from. -/
def p5Pool (difficulty : Option String) : List P5Arch :=
  if difficulty = some "hard" then p5HardPool else p5FullPool

/-- One iteration of the `for i in range(count)` loop of `gen_part5`:
pick an archetype, run it and label its options. -/
def p5Question (lex : Lex) (pool : List P5Arch) (i : Nat) (r : RNG) : Question × RNG :=
  let (arch, r) := choice pool P5Arch.p5_preposition r
  let (out, r) := p5Run arch lex r
  let ((options, ans), r) := labelOptions (out.opts.map (fun x => x)) out.correctIdx r
  ({ id := "G-P5-Q" ++ toString (i + 1), stem := some out.stem,
     options := options, answer := ans, explanationJa := out.note }, r)

/-- The question-building loop of `gen_part5`. -/
def p5Loop (lex : Lex) (pool : List P5Arch) : Nat → Nat → RNG → List Question × RNG
  | 0, _, r => ([], r)
  | Nat.succ k, i, r =>
    let (q, r) := p5Question lex pool i r
    let (rest, r') := p5Loop lex pool k (i + 1) r
    (q :: rest, r')

/-- Model of `toeic_generator.gen_part5`. -/
def genPart5 (count : Nat) (r : RNG) (difficulty : Option String)
    (genre : Option String) (domain : Option String) : PartBlock × RNG :=
  let _ := genre
  let lex := domainLex domain
  let (qs, r') := p5Loop lex (p5Pool difficulty) count 0 r
  ({ part := 5, name := "Incomplete Sentences",
     instructions := "Choose the word or phrase that best completes the sentence.",
     questions := qs }, r')

/-! ### Part 6: Text Completion (`gen_part6`) -/

/-- The 21 document-type archetype functions of `gen_part6`, one constructor
per Python local function, in the order of the assembled `patterns` list. -/
inductive P6Pattern
  | memo_type
  | notice_type
  | email_type
  | apology_type
  | plan_type
  | newsletter_type
  | ad_type
  | faq_type
  | paragraph_multi
  | outage_notice
  | invitation_type
  | confirmation_email
  | press_release
  | survey_announce
  | shipping_delay
  | followup_email
  | minutes_excerpt
  | policy_update2
  | product_recall
  | itinerary_snippet
  | manual_step
deriving DecidableEq

/-- The numbered blank markers of the `paragraph_multi` archetype. -/
def blankMarker1 : String := "【_____1】"

def blankMarker2 : String := "【_____2】"

def blankMarker3 : String := "【_____3】"

/-- Number of the three numbered blank markers present in a text. -/
def countMarkers (text : String) : Nat :=
  (if strContains text blankMarker1 then 1 else 0)
    + (if strContains text blankMarker2 then 1 else 0)
    + (if strContains text blankMarker3 then 1 else 0)

/-- Option sets of the three `paragraph_multi` blanks (hard-coded in the
source for blanks 1–3). -/
def pmBlank1Opts : List String := ["submit", "repair", "cancel", "extend"]

def pmBlank2Opts : List String := ["submit", "review", "cancel", "extend"]

def pmBlank3Opts : List String := ["coordinate", "communicate", "collaborate", "cooperate"]

/-- The paragraph text built by `paragraph_multi`: two numbered blanks, plus
a third sentence with marker 3 when `blanks == 3`. -/
def paragraphMultiText (blanks : Nat) (n1 n2 : String) : String :=
  let base := "To all staff, \nWe are updating procedures this month to improve efficiency. "
  let base := base ++ "Please 【_____1】 the " ++ n1 ++ " and 【_____2】 the " ++ n2 ++ " by Friday. "
  if blanks = 3 then base ++ "We also ask you to 【_____3】 with your team to avoid delays." else base

/-- The `paragraph_multi` archetype: choose 2 or 3 blanks, build the
paragraph from the first two domain nouns, label each blank's option set in
turn, draw a (discarded) group id, and return blank 1's options with the
correct index recovered from its answer letter. -/
def paragraphMultiRun (domain : Option String) (r : RNG) : StemOut × RNG :=
  let (blanks, r) := choice [2, 3] 0 r
  let nouns := (domainLex domain).nouns
  let n1 := nouns.headD "forms"
  let n2 := nouns.getD 1 "reports"
  let text := paragraphMultiText blanks n1 n2
  let ((ls1, a1), r) := labelOptions pmBlank1Opts 0 r
  let ((ls2, a2), r) := labelOptions pmBlank2Opts 0 r
  let (res3, r) := if blanks = 3 then
      let (p, r') := labelOptions pmBlank3Opts 0 r
      (some p, r')
    else (none, r)
  let (gid, r) := randrange 1000000 9999999 r
  let _ := (ls2, a2, res3, gid)
  (⟨text, ls1, a1.toNat - 65,
    "段落型の空欄（空欄1）。連続空所モードでは本文中の番号つき空欄を順に解答します。"⟩, r)

/-- Run one Part 6 archetype (`domain` is the tag `gen_part6` closed over). -/
def runP6Pattern (p : P6Pattern) (domain : Option String) (r : RNG) : StemOut × RNG :=
  match p with
  | .memo_type =>
    (⟨"To all staff: Please 【_____】 your timesheets by Friday so payroll can be processed on time. Thank you.",
      ["submit", "repair", "cancel", "extend"], 0,
      "timesheet は『提出する』= submit が自然。"⟩, r)
  | .notice_type =>
    (⟨"Reminder: The parking lot will be closed for cleaning this weekend. Please 【_____】 alternative arrangements.",
      ["make", "made", "making", "to make"], 0,
      "collocation として make arrangements（手配をする）。"⟩, r)
  | .email_type =>
    (⟨"Dear Customer, Your order has been shipped and should arrive 【_____】 three business days.",
      ["within", "at", "on", "since"], 0,
      "『〜以内に』は within。"⟩, r)
  | .apology_type =>
    (⟨"We apologize for the delay in responding to your inquiry and appreciate your 【_____】.",
      ["patience", "patient", "patients", "patiently"], 0,
      "appreciate の目的語に名詞 patience。"⟩, r)
  | .plan_type =>
    (⟨"Our company is 【_____】 a new line of eco-friendly packaging next quarter.",
      ["launching", "launched", "to launch", "launch"], 0,
      "be + V-ing で近い未来の確定予定を表現。"⟩, r)
  | .newsletter_type =>
    (⟨"Newsletter: The team will host a workshop next month. Please 【_____】 if you plan to attend.",
      ["register", "registered", "registration", "to register"], 0,
      "命令/依頼文では動詞の原形 register が自然。"⟩, r)
  | .ad_type =>
    let item := (domainLex domain).ad_item
    (⟨"Advertisement: Sign up now and get 20% off " ++ item ++ ". Offer 【_____】 March 31.",
      ["until", "since", "at", "on"], 0,
      "期限は until が自然です。"⟩, r)
  | .faq_type =>
    (⟨"FAQ: Q) How can I reset my password? A) Please 【_____】 the instructions on the settings page.",
      ["follow", "follows", "to follow", "following"], 0,
      "動詞の原形 follow を用いるのが自然です。"⟩, r)
  | .paragraph_multi => paragraphMultiRun domain r
  | .outage_notice =>
    (⟨"Notice: The service will be unavailable from 2 a.m. to 4 a.m. Please 【_____】 accordingly.",
      ["plan", "plans", "planning", "to plan"], 0,
      "依頼/指示文では原形 plan。"⟩, r)
  | .invitation_type =>
    (⟨"Invitation: You are invited to our product launch event. Please 【_____】 by May 5.",
      ["RSVP", "RSVPs", "to RSVP", "RSVPed"], 0,
      "ここでは動詞としての RSVP（原形）を用いる。"⟩, r)
  | .confirmation_email =>
    (⟨"Email: Thank you for your request. We have 【_____】 your form and will contact you soon.",
      ["received", "receive", "receiving", "to receive"], 0,
      "受け取った＝過去分詞 received。"⟩, r)
  | .press_release =>
    (⟨"Press Release: Trendmore Inc. will launch a regional pilot next month. Please 【_____】 our website for details.",
      ["see", "seeing", "to see", "saw"], 0,
      "指示文の原形 see（『参照してください』）。"⟩, r)
  | .survey_announce =>
    (⟨"Survey: All employees are invited to 【_____】 the questionnaire by Friday.",
      ["complete", "completed", "completing", "to complete"], 0,
      "不定詞や分詞ではなく、命令・依頼的な原形 complete。"⟩, r)
  | .shipping_delay =>
    (⟨"Shipping Update: Your order is 【_____】 due to customs inspection.",
      ["delayed", "delay", "delaying", "to delay"], 0,
      "受動の状態を表す delayed が自然。"⟩, r)
  | .followup_email =>
    (⟨"Email: Following up on our meeting, please 【_____】 the attached proposal.",
      ["review", "reviews", "reviewing", "to review"], 0,
      "依頼文の原形 review。"⟩, r)
  | .minutes_excerpt =>
    (⟨"Minutes: Mr. Cho 【_____】 the budget revisions; the team agreed to submit feedback by Tuesday.",
      ["presented", "presents", "presenting", "to present"], 0,
      "過去の出来事の記録 → 過去形 presented。"⟩, r)
  | .policy_update2 =>
    (⟨"Policy Update: All visitors must 【_____】 at the front desk upon arrival.",
      ["sign in", "sign on", "sign at", "sign up"], 0,
      "受付での手続きは sign in。sign up は登録。"⟩, r)
  | .product_recall =>
    (⟨"Recall Notice: If your unit shows signs of overheating, 【_____】 using it immediately.",
      ["stop", "stops", "to stop", "stopped"], 0,
      "命令文の原形 stop。"⟩, r)
  | .itinerary_snippet =>
    (⟨"Itinerary: Flight JK210 departs at 09:15 and 【_____】 at 12:45.",
      ["arrives", "arrive", "arrived", "is arriving"], 0,
      "三単現の arrives。"⟩, r)
  | .manual_step =>
    (⟨"Manual: To reset the device, 【_____】 the power button for ten seconds.",
      ["hold", "holds", "to hold", "holding"], 0,
      "手順書の命令形：hold。"⟩, r)

/-- The assembled `patterns` list of `gen_part6`, in source order. -/
def p6PatternList : List P6Pattern :=
  [ .memo_type, .notice_type, .email_type, .apology_type, .plan_type,
    .newsletter_type, .ad_type, .faq_type, .paragraph_multi,
    .outage_notice, .invitation_type, .confirmation_email,
    .press_release, .survey_announce, .shipping_delay, .followup_email,
    .minutes_excerpt, .policy_update2, .product_recall, .itinerary_snippet,
    .manual_step ]

/-- The fixed notes `gen_part6` stores for blanks 2 and 3. -/
def pmNote2 : String := "ここも『提出する』= submit が自然（空欄2）。"

def pmNote3 : String := "遅延回避のために『調整する』= coordinate が最適（空欄3）。"

/-- Body of the `for i in range(count)` loop of `gen_part6`: run the picked
pattern, label its options, and — when the pattern is `paragraph_multi` —
re-derive the blank count from the text, relabel blanks 2/3, and attach the
multi-blank context. -/
def p6Question (domain : Option String) (i : Nat) (pat : P6Pattern) (r : RNG) :
    Question × RNG :=
  let (out, r) := runP6Pattern pat domain r
  let ((options, ans), r) := labelOptions (out.opts.map (fun x => x)) out.correctIdx r
  let ctx0 : Ctx := { text := some out.stem }
  if pat = P6Pattern.paragraph_multi then
    let blanks := if strContains out.stem blankMarker3 then 3 else 2
    let ((opts2L, ans2), r) := labelOptions pmBlank2Opts 0 r
    let (p3, r) := if blanks = 3 then labelOptions pmBlank3Opts 0 r else (([], 'A'), r)
    let (gv, r) := randrange 1000000 9999999 r
    let ctx : Ctx := { ctx0 with
      multiBlanks := true
      blankCount := blanks
      blankIndex := 0
      blankOptionsLabeled := [options, opts2L] ++ (if blanks = 3 then [p3.1] else [])
      blankAnswerLetters := [ans, ans2] ++ (if blanks = 3 then [p3.2] else [])
      blankNotes := [out.note, pmNote2] ++ (if blanks = 3 then [pmNote3] else [])
      groupId := some ("P6-" ++ toString gv) }
    ({ id := "G-P6-Q" ++ toString (i + 1), context := some ctx,
       options := options, answer := ans, explanationJa := out.note }, r)
  else
    ({ id := "G-P6-Q" ++ toString (i + 1), context := some ctx0,
       options := options, answer := ans, explanationJa := out.note }, r)

/-- The question-building loop of `gen_part6`. -/
def p6Loop (domain : Option String) : Nat → Nat → RNG → List Question × RNG
  | 0, _, r => ([], r)
  | Nat.succ k, i, r =>
    let (pat, r) := choice p6PatternList P6Pattern.memo_type r
    let (q, r) := p6Question domain i pat r
    let (rest, r') := p6Loop domain k (i + 1) r
    (q :: rest, r')

/-- Model of `toeic_generator.gen_part6`. -/
def genPart6 (count : Nat) (r : RNG) (difficulty : Option String)
    (genre : Option String) (domain : Option String) : PartBlock × RNG :=
  let _ := (difficulty, genre)
  let (qs, r') := p6Loop domain count 0 r
  ({ part := 6, name := "Text Completion",
     instructions := "Read the text and choose the best option to complete the blank.",
     questions := qs }, r')

/-! ### Part 7: Reading Comprehension (`gen_part7`) -/

/-- Sentence-template vocabularies of `_build_paragraph`. -/
def p7Subjects : List String :=
  ["Our company", "The community center", "A local nonprofit", "The city council",
   "The marketing team", "A travel agency", "This year’s organizing committee"]

def p7Actions : List String :=
  ["is planning", "has announced", "will introduce", "is preparing",
   "decided to launch", "started coordinating", "will expand"]

def p7Objects : List String :=
  ["a new outreach program", "an annual charity event", "a series of workshops",
   "an employee wellness initiative", "a weekend festival", "a pilot project"]

def p7Details : List String :=
  ["to support local businesses", "to improve public awareness",
   "to gather feedback from residents", "to foster collaboration across departments",
   "to help first-time participants", "to share practical skills"]

/-- The sentence loop of `_build_paragraph`. -/
def buildSentences : Nat → RNG → List String × RNG
  | 0, r => ([], r)
  | Nat.succ k, r =>
    let (s, r) := choice p7Subjects "" r
    let (a, r) := choice p7Actions "" r
    let (o, r) := choice p7Objects "" r
    let (d, r) := choice p7Details "" r
    let (rest, r') := buildSentences k r
    ((s ++ " " ++ a ++ " " ++ o ++ " " ++ d ++ ".") :: rest, r')

/-- Model of `toeic_generator._build_paragraph`. -/
def buildParagraph (r : RNG) (targetSentences : Nat) : String × RNG :=
  let (ss, r') := buildSentences targetSentences r
  (String.intercalate " " ss, r')

/-- Model of `toeic_generator._make_passage`. -/
def makePassage (r : RNG) (length : String) : String × RNG :=
  if length = "long" then
    let (p1, r) := buildParagraph r 5
    let (p2, r) := buildParagraph r 5
    let (p3, r') := buildParagraph r 4
    (p1 ++ "\n\n" ++ p2 ++ "\n\n" ++ p3, r')
  else if length = "medium" then
    let (p1, r) := buildParagraph r 4
    let (p2, r') := buildParagraph r 3
    (p1 ++ "\n\n" ++ p2, r')
  else
    buildParagraph r 3

/-- One entry of the `_p7_short_bank` list:
`(passage, question, options, correct index, note)`. -/
structure P7Entry where
  passage : String
  stem : String
  opts : List String
  correctIdx : Nat
  note : String
deriving DecidableEq

/-- Placeholder entry for the (never used) empty-bank default of `choice`. -/
def p7Default : P7Entry := ⟨"", "", [], 0, ""⟩

/-- Model of `_p7_short_bank()`: the fixed bank of 18 short-document scenarios; the
advertisement entry splices in the domain lexicon's `ad_item`. -/
def p7ShortBank (domain : Option String) : List P7Entry :=
  [ ⟨"Notice: The downtown library will close at 5 p.m. on Friday for a private event. Regular hours resume Saturday.",
     "What will happen on Friday evening?",
     ["The library will host a private event.", "The library will extend its hours.",
      "The library will open a new branch.", "The library will be under renovation."], 0,
     "private event のために閉館。"⟩,
    ⟨"FAQ: How do I change my account e-mail? Go to Settings > Profile and select \u0027Update E-mail\u0027.",
     "What should users do to change their e-mail?",
     ["Open the Settings page and update it.", "Contact customer support by phone.",
      "Fill out a paper form.", "Send a fax to the office."], 0,
     "Settings > Profile の手順に従う。"⟩,
    ⟨"Schedule: Airport Shuttle — Departures: 08:00, 09:30, 11:00. Returns: 14:00, 16:30, 19:00.",
     "When is the next shuttle after 9 a.m.?",
     ["09:30", "08:00", "11:00", "14:00"], 0,
     "9時以降の最初は 09:30。"⟩,
    ⟨"Ad: Sign up this week and get 30% off our " ++ (domainLex domain).ad_item ++ ".",
     "What is the main offer in the ad?",
     ["A 30% discount for sign-ups this week.", "A free trial for one month.",
      "A buy-one-get-one deal.", "A free upgrade for all users."], 0,
     "this week の 30% 割引を告知。"⟩,
    ⟨"Review: The new model is lightweight and easy to carry, but the screen brightness could be higher.",
     "What is one criticism mentioned in the review?",
     ["The screen is not bright enough.", "It is too heavy.",
      "It is complicated to use.", "The battery drains too fast."], 0,
     "brightness に不満。"⟩,
    ⟨"Notice: The cafeteria will be closed on Tuesday afternoon for equipment maintenance.",
     "What will happen on Tuesday afternoon?",
     ["The cafeteria will be closed.", "The cafeteria will extend hours.",
      "A new cafeteria will open.", "Free meals will be offered."], 0,
     "メンテナンスのため閉鎖。"⟩,
    ⟨"Job Posting: We are seeking a part-time receptionist with weekend availability.",
     "What is one requirement for the position?",
     ["Availability on weekends.", "A full-time schedule.",
      "Experience in construction.", "International travel."], 0,
     "週末の勤務可能が条件。"⟩,
    ⟨"Invoice: Balance due by June 30. Please include the invoice number with your payment.",
     "When is the balance due?",
     ["By June 30.", "By June 15.", "On July 1.", "Within seven days."], 0,
     "due by = 期限。"⟩,
    ⟨"Policy: Personal devices must be kept in silent mode during meetings.",
     "What must employees do during meetings?",
     ["Keep personal devices in silent mode.", "Turn off all lights.",
      "Report to security.", "Wear ID badges at home."], 0,
     "silent mode が要件。"⟩,
    ⟨"FAQ: Can I return items without a receipt? Returns without a receipt are accepted for store credit only.",
     "What happens if you return an item without a receipt?",
     ["You receive store credit.", "You receive a full refund.",
      "The return is not accepted.", "You must pay a fee."], 0,
     "store credit のみ。"⟩,
    ⟨"Schedule: Trains to Central — 08:10, 08:40, 09:05, 09:50.",
     "Which train departs after 9 a.m.?",
     ["09:05", "08:40", "08:10", "09:50"], 0,
     "9時以降最初は 09:05。"⟩,
    ⟨"Press Release: Norvia Labs will open a new research center in August to expand its testing capacity.",
     "What is Norvia Labs planning to do?",
     ["Open a new research center.", "Close its main office.",
      "Discontinue testing services.", "Relocate overseas immediately."], 0,
     "open a new research center と明記。"⟩,
    ⟨"Menu: Lunch Set includes soup, a main dish, and coffee or tea.",
     "What is included in the lunch set?",
     ["Soup and a main dish with a drink.", "Only a main dish.",
      "Dessert and coffee only.", "Two main dishes."], 0,
     "includes の列挙に soup, main dish, and coffee or tea。"⟩,
    ⟨"Parking Rates: $3 per hour; maximum daily rate $12.",
     "How much is the maximum daily parking rate?",
     ["$12", "$3", "$6", "$9"], 0,
     "maximum daily rate $12 と記載。"⟩,
    ⟨"Event: Community Cleanup — Saturday 9 a.m. Registration closes Thursday at 5 p.m.",
     "When does registration close?",
     ["Thursday at 5 p.m.", "Friday at noon.", "Saturday at 9 a.m.", "Sunday morning."], 0,
     "Registration closes の時刻は Thursday 5 p.m.。"⟩,
    ⟨"Weather Alert: High winds expected overnight. Secure outdoor items.",
     "What does the alert advise people to do?",
     ["Secure outdoor items.", "Open all windows.", "Drive at high speed.", "Cancel indoor events."], 0,
     "Secure outdoor items と明記。"⟩,
    ⟨"Post: Our pop-up store opens at 11 a.m. today — first 50 visitors get a free tote bag!",
     "What is offered to early visitors?",
     ["A free tote bag.", "A free lunch.", "A 70% discount.", "A free umbrella."], 0,
     "first 50 visitors get a free tote bag。"⟩,
    ⟨"Interview Schedule: Candidates should arrive 15 minutes early and bring photo ID.",
     "What must candidates bring?",
     ["A photo ID.", "A recommendation letter.", "A passport-sized photo.", "A laptop."], 0,
     "bring photo ID とある。"⟩ ]

/-- The genre tags recognised by the `elif` chain of `gen_part7`'s short
branch, each with the passage label it filters on.  `"notice"` and
`"internal_notice"` are a single branch in the source. -/
def p7GenreLabel : List (String × String) :=
  [ ("faq", "FAQ:"), ("schedule", "Schedule:"), ("advertisement", "Ad:"),
    ("review", "Review:"), ("notice", "Notice:"), ("internal_notice", "Notice:"),
    ("policy", "Policy:"), ("press_release", "Press Release:"),
    ("invoice", "Invoice:"), ("menu", "Menu:"), ("event", "Event:"),
    ("weather", "Weather Alert:"), ("job_posting", "Job Posting:"),
    ("parking", "Parking Rates:"), ("social_post", "Post:"),
    ("interview", "Interview Schedule:"), ("newsletter", "Newsletter:") ]

/-- The genre dispatch of the short branch: filter the bank to entries whose
passage starts with the genre's label, falling back to the full bank when the
filtered list is empty (`candidates or short_bank` / explicit
`if candidates:`), or when the genre is unrecognised or absent. -/
def p7PickShort (genre : Option String) (bank : List P7Entry) (r : RNG) : P7Entry × RNG :=
  match genre with
  | none => choice bank p7Default r
  | some g =>
    match p7GenreLabel.lookup g with
    | none => choice bank p7Default r
    | some label =>
      let candidates := bank.filter (fun b => strStartsWith b.passage label)
      if candidates = [] then choice bank p7Default r else choice candidates p7Default r

/-- The `key_hint` substring-matching chain of the short branch. -/
def p7KeyHint (passage : String) : String :=
  if strContains passage "private event" then
    "本文には『private event（貸切）』とあり、そのため金曜は閉館すると示されています。"
  else if strContains passage "attached the draft agenda" then
    "『draft agenda を添付』し、火曜までに修正（edits）を送るよう依頼している旨が書かれています。"
  else if strContains passage "Registration includes" then
    "『Registration includes ...』に T-shirt と refreshment が明示されています。"
  else if strContains passage "The elevator is out of service" then
    "『エレベーターは使用不可』のため、『階段や貨物用エレベーターを使用』と代替手段が提示されています。"
  else if strContains passage "battery life" then
    "レビューでは『battery life could be better』とあり、電池持ちへの不満が述べられています。"
  else ""

/-- The candidate objects of the medium/long "which is mentioned" question. -/
def p7MentionObjects : List String :=
  ["a new outreach program", "a series of workshops", "a pilot project",
   "an employee wellness initiative"]

/-- Body of the `for i in range(count)` loop of `gen_part7`.  The float
comparison `rng.random() < 0.5` of the medium/long branch is modelled as a
fair coin on the next stream word (`v % 2 = 0`). -/
def p7Question (length : String) (genre : Option String) (domain : Option String)
    (i : Nat) (r : RNG) : Question × RNG :=
  if length = "medium" ∨ length = "long" then
    let (passage, r) := makePassage r length
    let (v, r) := r.next
    let (qd, r) :=
      if v % 2 = 0 then
        ((("What is the main purpose of the passage?",
           ["To announce or describe an upcoming initiative.",
            "To provide technical instructions for repairs.",
            "To advertise discounted products.",
            "To issue a safety recall notice."]), (0,
           "段落全体が『新たな取り組みや計画の告知・説明』に一貫して言及しています。")), r)
      else
        let (obj, r') := choice p7MentionObjects "" r
        ((("Which of the following is mentioned in the passage?",
           ["Plans to introduce " ++ obj ++ ".",
            "A recall of defective devices.",
            "A storewide 50% discount.",
            "Instructions to repair machinery."]), (0,
           "本文は新たな取り組みの導入を述べており、値引きや製品回収、修理手順は含まれていません。")), r')
    let ((options, ans), r) := labelOptions qd.1.2 qd.2.1 r
    ({ id := "G-P7-Q" ++ toString (i + 1), stem := some qd.1.1,
       context := some { passage := some passage },
       options := options, answer := ans, explanationJa := qd.2.2 }, r)
  else
    let bank := p7ShortBank domain
    let (e, r) := p7PickShort genre bank r
    let note := "本文の記述から直接答えを特定できます。" ++ p7KeyHint e.passage
      ++ "根拠となる語句に線を引いて確認すると正答の再現性が高まります。"
    let ((options, ans), r) := labelOptions e.opts e.correctIdx r
    ({ id := "G-P7-Q" ++ toString (i + 1), stem := some e.stem,
       context := some { passage := some e.passage },
       options := options, answer := ans, explanationJa := note }, r)

/-- The question-building loop of `gen_part7`. -/
def p7Loop (length : String) (genre : Option String) (domain : Option String) :
    Nat → Nat → RNG → List Question × RNG
  | 0, _, r => ([], r)
  | Nat.succ k, i, r =>
    let (q, r) := p7Question length genre domain i r
    let (rest, r') := p7Loop length genre domain k (i + 1) r
    (q :: rest, r')

/-- Model of `toeic_generator.gen_part7`. -/
def genPart7 (count : Nat) (r : RNG) (length : String) (difficulty : Option String)
    (genre : Option String) (domain : Option String) : PartBlock × RNG :=
  let _ := difficulty
  let (qs, r') := p7Loop length genre domain count 0 r
  ({ part := 7, name := "Reading Comprehension",
     instructions := "Read the passage and choose the best answer.",
     questions := qs }, r')

/-! ### `generate_dataset`: the Dataset Assembler -/

/-- Concrete stand-in for seeding `random.Random(seed)` with an explicit
integer seed: a word stream derived from the seed.  No theorem below depends
on the particular stream values, only on the fact that the stream is a
deterministic function of the seed. -/
def rngOfSeed (seed : Int) : RNG :=
  ⟨fun n => (seed.natAbs + 2654435761 * (n + 1)) % 4294967296, 0⟩

/-- The keys of the `generators` dict of `generate_dataset`. -/
def generatorKeys : List Int := [1, 2, 3, 4, 5, 6, 7]

/-- The assignment `part_list = parts or [5, 6, 7]`: `None` and the empty list are falsy. -/
def effectiveParts (parts : Option (List Int)) : List Int :=
  match parts with
  | none => [5, 6, 7]
  | some l => if l = [] then [5, 6, 7] else l

/-- The `for p in part_list` loop of `generate_dataset`: a block is emitted
only when `generators.get(p)` is truthy and `p in (5, 6, 7)`; parts 1–4 have
generators in the dict but fail the second test, so their synthesizers are
never invoked. -/
def buildPartsLoop (perPart : Nat) (p7len : String) (difficulty : Option String)
    (genre : Option String) (domain : Option String) :
    List Int → RNG → List PartBlock × RNG
  | [], r => ([], r)
  | p :: rest, r =>
    if p ∈ generatorKeys ∧ (p = 5 ∨ p = 6 ∨ p = 7) then
      let (blk, r) :=
        if p = 7 then genPart7 perPart r p7len difficulty genre domain
        else if p = 6 then genPart6 perPart r difficulty genre domain
        else genPart5 perPart r difficulty genre domain
      let (out, r') := buildPartsLoop perPart p7len difficulty genre domain rest r
      (blk :: out, r')
    else
      buildPartsLoop perPart p7len difficulty genre domain rest r

/-- Model of `toeic_generator.generate_dataset` for an explicit integer seed.
`today` is the value of `datetime.date.today().isoformat()` at call time,
made explicit. -/
def generateDataset (today : String) (title : String) (perPart : Nat)
    (parts : Option (List Int)) (seed : Int) (p7Length : Option String)
    (difficulty : Option String) (genre : Option String) (domain : Option String) :
    Dataset :=
  let rng := rngOfSeed seed
  let partList := effectiveParts parts
  let p7len := match p7Length with
    | none => "short"
    | some s => if s = "" then "short" else s
  let (outParts, _) := buildPartsLoop perPart p7len difficulty genre domain partList rng
  { title := title, version := "1.0.0", language := "en",
    explanationsLanguage := "ja", createdAt := today, parts := outParts,
    metadataNoteJa := "このデータはスクリプトで自動生成されたオリジナル問題です（TOEIC形式に準拠）。" }

/-! ### `app.filter_reading_only`, with an explicit heap of list objects

Python aliasing is made visible: the heap maps addresses to part-block list
objects, a dataset dict holds the address of its `parts` list, and building
`[p for p in data["parts"] if ...]` allocates a fresh list at a fresh
address, leaving every existing address untouched. -/

/-- Heap of Python list objects; an address is an index into the heap. -/
abbrev Heap : Type := List (List PartBlock)

/-- Dereference an address. -/
def heapGet (h : Heap) (a : Nat) : List PartBlock := h.getD a []

/-- A dataset dict whose `parts` value is a heap reference. -/
structure DatasetRef where
  title : String
  version : String
  language : String
  explanationsLanguage : String
  createdAt : String
  partsRef : Nat
  metadataNoteJa : String
deriving DecidableEq

/-- Model of `filter_reading_only` (identical in `app.py` and `streamlit_app.py`):
build the filtered list as a fresh object, shallow-copy the dict, and rebind
the copy's `parts` key to the fresh list. -/
def filterReadingOnly (h : Heap) (d : DatasetRef) : Heap × DatasetRef :=
  let parts := (heapGet h d.partsRef).filter (fun p => 5 ≤ p.part)
  (h ++ [parts], { d with partsRef := h.length })

/-! ### The Dash quiz session state machine (`app.py`) -/

/-- The `state-store` dict `{"index": ..., "score": ..., "answered": ...}`. -/
structure QuizState where
  index : Nat
  score : Nat
  answered : Bool
deriving DecidableEq

/-- The reset state `(0, 0, false)`. -/
def initQuizState : QuizState := ⟨0, 0, false⟩

/-- Placeholder for the out-of-range list access `questions[idx]`, which
would raise `IndexError` in Python; theorems assume `idx` in range. -/
def defaultQuestion : Question :=
  { id := "", options := [], answer := 'A', explanationJa := "" }

/-- Model of `app.on_submit`; `none` models Dash's `no_update`.  The guard
`if not choice_value` (no radio selection) is the `none` case of
`choiceValue`. -/
def onSubmit (questions : List Question) (st : QuizState) (choiceValue : Option Char) :
    Option QuizState :=
  if questions = [] then none
  else if st.answered then none
  else
    let idx := st.index
    let q := questions.getD idx defaultQuestion
    match choiceValue with
    | none => none
    | some c =>
      some ⟨idx, st.score + (if c = q.answer then 1 else 0), true⟩

/-- The effect of one submit event on the stored state (`no_update` keeps the
previous state). -/
def submitStep (questions : List Question) (st : QuizState) (c : Option Char) : QuizState :=
  (onSubmit questions st c).getD st

/-- Model of `app.on_restart`: reset when a dataset is loaded, `no_update` otherwise. -/
def onRestart (questions : List Question) : Option QuizState :=
  if questions = [] then none else some initQuizState

/-- The state component returned by every return path of `app.on_load`. -/
def onLoadState : QuizState := initQuizState

/-- Score bound used to reason about sequences of submit events. -/
def scoreBound (st : QuizState) : Nat :=
  st.score + (if st.answered then 0 else 1)

/-! Shorthands for the intermediate values of `p6Question` on the
`paragraph_multi` branch (definitionally equal to the corresponding
sub-terms of `p6Question`). -/

/-- The top-level (re-)labeling of blank 1's already-labeled options. -/
def pmOuter (dom : Option String) (r : RNG) : (List String × Char) × RNG :=
  labelOptions ((paragraphMultiRun dom r).1.opts.map (fun x => x))
    (paragraphMultiRun dom r).1.correctIdx (paragraphMultiRun dom r).2

/-- The blank count `gen_part6` re-derives from the presence of marker 3. -/
def pmBlanksOf (dom : Option String) (r : RNG) : Nat :=
  if strContains (paragraphMultiRun dom r).1.stem blankMarker3 then 3 else 2

/-- The relabeling of blank 2's option set. -/
def pmSecond (dom : Option String) (r : RNG) : (List String × Char) × RNG :=
  labelOptions pmBlank2Opts 0 (pmOuter dom r).2

/-- The conditional relabeling of blank 3's option set. -/
def pmThird (dom : Option String) (r : RNG) : (List String × Char) × RNG :=
  if pmBlanksOf dom r = 3 then labelOptions pmBlank3Opts 0 (pmSecond dom r).2
  else (([], 'A'), (pmSecond dom r).2)

/-- The group-id draw. -/
def pmGroup (dom : Option String) (r : RNG) : Nat × RNG :=
  randrange 1000000 9999999 (pmThird dom r).2

/-- A concrete word stream used to instantiate theorems at specific inputs. -/
def natStream : RNG := ⟨fun n => n, 0⟩

/-- The four option letters. -/
def letterList : List Char := ['A', 'B', 'C', 'D']

/-! ### Basic properties of the shuffle/label model -/

theorem listSwap_length (l : List Nat) (i j : Nat) :
    (listSwap l i j).length = l.length := by
  simp [listSwap]

theorem shuffleAux_length (n : Nat) :
    ∀ (l : List Nat) (r : RNG), (shuffleAux l r n).1.length = l.length := by
  induction n with
  | zero => intro l r; rfl
  | succ n ih =>
    intro l r
    simp only [shuffleAux]
    rw [ih, listSwap_length]

theorem shuffle_length (l : List Nat) (r : RNG) :
    (shuffle l r).1.length = l.length := by
  simp [shuffle, shuffleAux_length]

/-- Replacing the `m`-th element of a list by `x` while putting the old
element in front is a permutation of putting `x` in front. -/
theorem getD_cons_set_perm :
    ∀ (t : List Nat) (m : Nat), m < t.length →
      ∀ x : Nat, (t.getD m 0 :: t.set m x).Perm (x :: t) := by
  intro t
  induction t with
  | nil => intro m hm; simp at hm
  | cons y s ih =>
    intro m hm x
    cases m with
    | zero =>
      simpa using List.Perm.swap x y s
    | succ m =>
      have hms : m < s.length := by simpa using hm
      have h1 : (s.getD m 0 :: y :: s.set m x).Perm (y :: s.getD m 0 :: s.set m x) :=
        List.Perm.swap y (s.getD m 0) (s.set m x)
      have h2 : (y :: s.getD m 0 :: s.set m x).Perm (y :: x :: s) :=
        List.Perm.cons y (ih m hms x)
      have h3 : (y :: x :: s).Perm (x :: y :: s) := List.Perm.swap x y s
      simpa using (h1.trans h2).trans h3

theorem listSwap_perm_of_lt :
    ∀ (i : Nat) (l : List Nat) (j : Nat), i < j → j < l.length →
      (listSwap l i j).Perm l := by
  intro i
  induction i with
  | zero =>
    intro l j hij hj
    cases l with
    | nil => simp at hj
    | cons y s =>
      cases j with
      | zero => omega
      | succ m =>
        have hms : m < s.length := by simpa using hj
        simp only [listSwap, List.getD_cons_succ, List.getD_cons_zero,
          List.set_cons_zero, List.set_cons_succ]
        exact getD_cons_set_perm s m hms y
  | succ i ih =>
    intro l j hij hj
    cases l with
    | nil => simp at hj
    | cons y s =>
      cases j with
      | zero => omega
      | succ m =>
        have hms : m < s.length := by simpa using hj
        simp only [listSwap, List.getD_cons_succ, List.set_cons_succ]
        exact List.Perm.cons y (ih s m (by omega) hms)

theorem set_getD_self (l : List Nat) (i : Nat) (hi : i < l.length) :
    l.set i (l.getD i 0) = l := by
  apply List.ext_getElem?
  intro n
  by_cases hn : i = n
  · subst hn
    rw [List.getElem?_set_self hi]
    simp [List.getD_eq_getElem?_getD, List.getElem?_eq_getElem hi]
  · rw [List.getElem?_set_ne hn]

theorem listSwap_self (l : List Nat) (i : Nat) (hi : i < l.length) :
    listSwap l i i = l := by
  simp only [listSwap]
  rw [List.set_set]
  exact set_getD_self l i hi

theorem listSwap_perm (l : List Nat) (i j : Nat)
    (hi : i < l.length) (hj : j < l.length) : (listSwap l i j).Perm l := by
  rcases Nat.lt_trichotomy i j with h | h | h
  · exact listSwap_perm_of_lt i l j h hj
  · subst h; rw [listSwap_self l i hi]
  · have : listSwap l i j = listSwap l j i := by
      simp only [listSwap]
      rw [List.set_comm _ _ _ (by omega)]
    rw [this]
    exact listSwap_perm_of_lt j l i h hi

theorem shuffleAux_perm (n : Nat) :
    ∀ (l : List Nat) (r : RNG), n < l.length → (shuffleAux l r n).1.Perm l := by
  induction n with
  | zero => intro l r _; exact List.Perm.refl l
  | succ n ih =>
    intro l r hn
    simp only [shuffleAux]
    have hj : (randbelow (n + 2) r).1 < n + 2 := by
      simp only [randbelow, RNG.next]
      exact Nat.mod_lt _ (by omega)
    have hswap : (listSwap l (n + 1) (randbelow (n + 2) r).1).Perm l :=
      listSwap_perm l (n + 1) _ hn (by omega)
    have hrec := ih (listSwap l (n + 1) (randbelow (n + 2) r).1)
      (randbelow (n + 2) r).2 (by rw [listSwap_length]; omega)
    exact hrec.trans hswap

theorem shuffle_perm (l : List Nat) (r : RNG) : (shuffle l r).1.Perm l := by
  cases l with
  | nil =>
    simp [shuffle, shuffleAux]
  | cons x s =>
    exact shuffleAux_perm _ _ _ (by simp)

theorem labelLoop_fst (opts : List String) (correct : Nat) :
    ∀ (idxs : List Nat) (i : Nat) (acc : List String) (a : Char),
      (labelLoop opts correct idxs i (acc, a)).1 = acc ++ buildLabeled opts idxs i := by
  intro idxs
  induction idxs with
  | nil => intro i acc a; simp [labelLoop, buildLabeled]
  | cons idx rest ih =>
    intro i acc a
    simp [labelLoop, buildLabeled, ih]

theorem labelLoop_snd (opts : List String) (correct : Nat) :
    ∀ (idxs : List Nat) (i : Nat) (acc : List String) (a : Char),
      (labelLoop opts correct idxs i (acc, a)).2 = lastAnswer correct idxs i a := by
  intro idxs
  induction idxs with
  | nil => intro i acc a; rfl
  | cons idx rest ih =>
    intro i acc a
    simp only [labelLoop, lastAnswer]
    exact ih (i + 1) _ _

theorem buildLabeled_length (opts : List String) :
    ∀ (idxs : List Nat) (i : Nat), (buildLabeled opts idxs i).length = idxs.length := by
  intro idxs
  induction idxs with
  | nil => intro i; rfl
  | cons idx rest ih => intro i; simp [buildLabeled, ih]

theorem leadingChar_labelStr (c : Char) (t : String) :
    leadingChar (labelStr c t) = c := by
  simp [leadingChar, labelStr, charStr]

theorem buildLabeled_map_leading (opts : List String) :
    ∀ (idxs : List Nat) (i : Nat),
      (buildLabeled opts idxs i).map leadingChar
        = (List.range' i idxs.length).map letterOfIdx := by
  intro idxs
  induction idxs with
  | nil => intro i; rfl
  | cons idx rest ih =>
    intro i
    simp [buildLabeled, List.range'_succ, leadingChar_labelStr, ih]

theorem buildLabeled_getD (opts : List String) :
    ∀ (idxs : List Nat) (i p : Nat), p < idxs.length →
      (buildLabeled opts idxs i).getD p ""
        = labelStr (letterOfIdx (i + p)) (opts.getD (idxs.getD p 0) "") := by
  intro idxs
  induction idxs with
  | nil => intro i p hp; simp at hp
  | cons idx rest ih =>
    intro i p hp
    cases p with
    | zero => simp [buildLabeled]
    | succ p =>
      have hp' : p < rest.length := by simpa using hp
      have := ih (i + 1) p hp'
      simpa [buildLabeled, Nat.add_assoc, Nat.add_comm 1 p] using this

theorem lastAnswer_not_mem (c : Nat) :
    ∀ (idxs : List Nat) (i : Nat) (a : Char), c ∉ idxs → lastAnswer c idxs i a = a := by
  intro idxs
  induction idxs with
  | nil => intro i a _; rfl
  | cons idx rest ih =>
    intro i a hmem
    have h1 : idx ≠ c := fun h => hmem (by simp [h])
    have h2 : c ∉ rest := fun h => hmem (List.mem_cons_of_mem _ h)
    simp only [lastAnswer, if_neg h1]
    exact ih (i + 1) a h2

theorem lastAnswer_mem (c : Nat) :
    ∀ (idxs : List Nat) (i : Nat) (a : Char), c ∈ idxs →
      ∃ p, p < idxs.length ∧ idxs.getD p 0 = c ∧
        lastAnswer c idxs i a = letterOfIdx (i + p) := by
  intro idxs
  induction idxs with
  | nil => intro i a h; simp at h
  | cons idx rest ih =>
    intro i a hmem
    by_cases hr : c ∈ rest
    · obtain ⟨p, hp, hget, heq⟩ := ih (i + 1) (if idx = c then letterOfIdx i else a) hr
      refine ⟨p + 1, by simpa using Nat.succ_lt_succ hp, by simpa using hget, ?_⟩
      have : lastAnswer c (idx :: rest) i a
          = lastAnswer c rest (i + 1) (if idx = c then letterOfIdx i else a) := rfl
      rw [this, heq]
      congr 1
      omega
    · have hidx : idx = c := by
        rcases List.mem_cons.mp hmem with h | h
        · exact h.symm
        · exact absurd h hr
      refine ⟨0, by simp, by simpa using hidx, ?_⟩
      have : lastAnswer c (idx :: rest) i a
          = lastAnswer c rest (i + 1) (if idx = c then letterOfIdx i else a) := rfl
      rw [this, if_pos hidx, lastAnswer_not_mem c rest (i + 1) _ hr]
      simp

theorem getD_mem_of_lt {α : Type} (l : List α) (p : Nat) (d : α) (hp : p < l.length) :
    l.getD p d ∈ l := by
  rw [List.getD_eq_getElem?_getD, List.getElem?_eq_getElem hp]
  exact List.getElem_mem hp

theorem exists_getD_of_mem (l : List Nat) (x : Nat) (h : x ∈ l) :
    ∃ p, p < l.length ∧ l.getD p 0 = x := by
  obtain ⟨i, hi, hx⟩ := List.getElem_of_mem h
  refine ⟨i, hi, ?_⟩
  rw [List.getD_eq_getElem?_getD, List.getElem?_eq_getElem hi, hx]
  rfl

theorem labelOptions_fst_fst (opts : List String) (c : Nat) (r : RNG) :
    (labelOptions opts c r).1.1
      = buildLabeled opts (shuffle (List.range opts.length) r).1 0 := by
  have h : (labelOptions opts c r).1.1
      = (labelLoop opts c (shuffle (List.range opts.length) r).1 0 ([], 'A')).1 := rfl
  rw [h, labelLoop_fst]
  simp

theorem labelOptions_fst_snd (opts : List String) (c : Nat) (r : RNG) :
    (labelOptions opts c r).1.2
      = lastAnswer c (shuffle (List.range opts.length) r).1 0 'A' := by
  have h : (labelOptions opts c r).1.2
      = (labelLoop opts c (shuffle (List.range opts.length) r).1 0 ([], 'A')).2 := rfl
  rw [h, labelLoop_snd]

theorem labelOptions_idxs_length (opts : List String) (r : RNG) :
    (shuffle (List.range opts.length) r).1.length = opts.length := by
  rw [shuffle_length, List.length_range]

theorem labelOptions_length (opts : List String) (c : Nat) (r : RNG) :
    (labelOptions opts c r).1.1.length = opts.length := by
  rw [labelOptions_fst_fst, buildLabeled_length, labelOptions_idxs_length]

theorem labelOptions_map_leading (opts : List String) (c : Nat) (r : RNG) :
    (labelOptions opts c r).1.1.map leadingChar
      = (List.range opts.length).map letterOfIdx := by
  rw [labelOptions_fst_fst, buildLabeled_map_leading, labelOptions_idxs_length,
    List.range_eq_range']

theorem labelOptions_answer (opts : List String) (c : Nat) (r : RNG)
    (hc : c < opts.length) :
    ∃ p, p < opts.length ∧
      (labelOptions opts c r).1.1.getD p "" = labelStr (letterOfIdx p) (opts.getD c "") ∧
      (labelOptions opts c r).1.2 = letterOfIdx p := by
  have hperm := shuffle_perm (List.range opts.length) r
  have hmem : c ∈ (shuffle (List.range opts.length) r).1 :=
    hperm.mem_iff.mpr (List.mem_range.mpr hc)
  obtain ⟨p, hp, hget, heq⟩ := lastAnswer_mem c _ 0 'A' hmem
  have hlen := labelOptions_idxs_length opts r
  refine ⟨p, by omega, ?_, ?_⟩
  · rw [labelOptions_fst_fst, buildLabeled_getD _ _ 0 p hp, hget]
    simp
  · rw [labelOptions_fst_snd, heq]
    simp

theorem labelOptions_mem_structure (opts : List String) (c : Nat) (r : RNG)
    (s : String) (hs : s ∈ (labelOptions opts c r).1.1) :
    ∃ i j, i < opts.length ∧ j < opts.length ∧
      s = labelStr (letterOfIdx i) (opts.getD j "") := by
  have hlen := labelOptions_length opts c r
  obtain ⟨p, hp, hx⟩ := List.getElem_of_mem hs
  have hp' : p < (shuffle (List.range opts.length) r).1.length := by
    rw [labelOptions_idxs_length]; omega
  have hgd : (labelOptions opts c r).1.1.getD p "" = s := by
    rw [List.getD_eq_getElem?_getD, List.getElem?_eq_getElem hp, hx]
    rfl
  rw [labelOptions_fst_fst, buildLabeled_getD _ _ 0 p hp'] at hgd
  set j := (shuffle (List.range opts.length) r).1.getD p 0 with hj
  have hjmem : j ∈ (shuffle (List.range opts.length) r).1 :=
    getD_mem_of_lt _ p 0 hp'
  have hjlt : j < opts.length :=
    List.mem_range.mp ((shuffle_perm (List.range opts.length) r).mem_iff.mp hjmem)
  exact ⟨p, j, by omega, hjlt, by rw [← hgd]; simp⟩

theorem choice_mem {α : Type} (l : List α) (d : α) (r : RNG) (h : l ≠ []) :
    (choice l d r).1 ∈ l := by
  have hl : 0 < l.length := List.length_pos.mpr h
  simp only [choice, randbelow, RNG.next]
  exact getD_mem_of_lt l _ d (Nat.mod_lt _ hl)

theorem shuffleAux_pos (n : Nat) :
    ∀ (l : List Nat) (r : RNG), (shuffleAux l r n).2.pos = r.pos + n := by
  induction n with
  | zero => intro l r; rfl
  | succ n ih =>
    intro l r
    simp only [shuffleAux]
    rw [ih]
    simp only [randbelow, RNG.next]
    omega

theorem labelOptions_pos (opts : List String) (c : Nat) (r : RNG) :
    (labelOptions opts c r).2.pos = r.pos + (opts.length - 1) := by
  have h : (labelOptions opts c r).2 = (shuffle (List.range opts.length) r).2 := rfl
  rw [h]
  simp only [shuffle, List.length_range]
  exact shuffleAux_pos _ _ r

/-- C2: for every option list of length 2–4 with in-range correct index,
`_label_options` produces options whose leading letters are exactly
`A, …, chr(ord('A')+k-1)`, each exactly once, in order, and an answer letter
that appears among those leading letters. -/
theorem claim_C2_label_letters (opts : List String) (c : Nat) (r : RNG)
    (h2 : 2 ≤ opts.length) (h4 : opts.length ≤ 4) (hc : c < opts.length) :
    (labelOptions opts c r).1.1.map leadingChar
        = (List.range opts.length).map letterOfIdx ∧
      (labelOptions opts c r).1.2 ∈ (labelOptions opts c r).1.1.map leadingChar := by
  refine ⟨labelOptions_map_leading opts c r, ?_⟩
  obtain ⟨p, hp, _, hans⟩ := labelOptions_answer opts c r hc
  rw [labelOptions_map_leading, hans]
  exact List.mem_map.mpr ⟨p, List.mem_range.mpr hp, rfl⟩

/-- Witness for C2 at the Part 5 preposition archetype's option list. -/
theorem claim_C2_label_letters_witness :
    (2 ≤ (["through", "among", "across", "under"] : List String).length ∧
      (["through", "among", "across", "under"] : List String).length ≤ 4 ∧
      0 < (["through", "among", "across", "under"] : List String).length) ∧
    ((labelOptions ["through", "among", "across", "under"] 0 natStream).1.1.map leadingChar
        = (List.range (["through", "among", "across", "under"] : List String).length).map letterOfIdx ∧
      (labelOptions ["through", "among", "across", "under"] 0 natStream).1.2
        ∈ (labelOptions ["through", "among", "across", "under"] 0 natStream).1.1.map leadingChar) :=
  ⟨by decide,
   claim_C2_label_letters ["through", "among", "across", "under"] 0 natStream
     (by decide) (by decide) (by decide)⟩

/-- C8 (amended): for identical generator states, `_label_options` is
reproducible, and a call advances the stream position by exactly
`len(options) - 1` draws (sequential state consumption). -/
theorem claim_C8_determinism (opts : List String) (c : Nat) (r1 r2 : RNG)
    (h : r1 = r2) :
    labelOptions opts c r1 = labelOptions opts c r2 ∧
      (labelOptions opts c r1).2.pos = r1.pos + (opts.length - 1) := by
  subst h
  exact ⟨rfl, labelOptions_pos opts c r1⟩

/-- Witness for the amended C8 at a concrete state and option list. -/
theorem claim_C8_determinism_witness :
    labelOptions ["submit", "repair", "cancel", "extend"] 0 natStream
        = labelOptions ["submit", "repair", "cancel", "extend"] 0 natStream ∧
      (labelOptions ["submit", "repair", "cancel", "extend"] 0 natStream).2.pos
        = natStream.pos + ((["submit", "repair", "cancel", "extend"] : List String).length - 1) :=
  claim_C8_determinism ["submit", "repair", "cancel", "extend"] 0 natStream natStream rfl

/-- C8 counterexample: two successive calls against the same generator
instance (no reseeding in between) CAN return the same labeled permutation:
on a one-element option list both calls return `(["A. only"], 'A')` and do
not even advance the state, refuting "no two calls produce the same
permutation unless the generator is reseeded identically". -/
theorem claim_C8_counterexample :
    (labelOptions ["only"] 0 natStream).1
      = (labelOptions ["only"] 0 (labelOptions ["only"] 0 natStream).2).1 := by
  decide

/-- C1 counterexample: with every argument of `generate_dataset` identical
(title, per-part count, default part list, seed 42, no hints), two calls that
observe different current dates return different Datasets, because
`createdAt` is stamped from `datetime.date.today()` rather than from the
arguments.  This refutes byte-identity of "every field of the envelope
(… createdAt …)" for two calls with identical arguments. -/
theorem claim_C1_counterexample :
    generateDataset "2025-01-01" "TOEIC Mock Test - Generated" 3 none 42 none none none none
      ≠ generateDataset "2025-01-02" "TOEIC Mock Test - Generated" 3 none 42 none none none none := by
  intro h
  have h2 := congrArg Dataset.createdAt h
  have e1 : (generateDataset "2025-01-01" "TOEIC Mock Test - Generated" 3 none 42
      none none none none).createdAt = "2025-01-01" := rfl
  have e2 : (generateDataset "2025-01-02" "TOEIC Mock Test - Generated" 3 none 42
      none none none none).createdAt = "2025-01-02" := rfl
  rw [e1, e2] at h2
  exact absurd h2 (by decide)

/-- C1 (amended): `generate_dataset` is deterministic given its arguments
and the current date: two calls with identical arguments agree on every
envelope field except `createdAt`, which equals the current date observed by
the call; in particular two calls with identical arguments on the same date
return byte-identical Datasets. -/
theorem claim_C1_determinism (t t' title : String) (perPart : Nat)
    (parts : Option (List Int)) (seed : Int) (p7l diff gre dom : Option String) :
    generateDataset t title perPart parts seed p7l diff gre dom
      = { generateDataset t' title perPart parts seed p7l diff gre dom with
          createdAt := t } := rfl

theorem genPart5_part (count : Nat) (r : RNG) (diff gre dom : Option String) :
    (genPart5 count r diff gre dom).1.part = 5 := rfl

theorem genPart6_part (count : Nat) (r : RNG) (diff gre dom : Option String) :
    (genPart6 count r diff gre dom).1.part = 6 := rfl

theorem genPart7_part (count : Nat) (r : RNG) (len : String) (diff gre dom : Option String) :
    (genPart7 count r len diff gre dom).1.part = 7 := rfl

theorem buildPartsLoop_parts (perPart : Nat) (p7len : String) (diff gre dom : Option String) :
    ∀ (ps : List Int) (r : RNG),
      (buildPartsLoop perPart p7len diff gre dom ps r).1.map PartBlock.part
        = ps.filter (fun p => p == 5 || p == 6 || p == 7) := by
  intro ps
  induction ps with
  | nil => intro r; rfl
  | cons p rest ih =>
    intro r
    by_cases h : p = 5 ∨ p = 6 ∨ p = 7
    · have hg : p ∈ generatorKeys ∧ (p = 5 ∨ p = 6 ∨ p = 7) :=
        ⟨by rcases h with h | h | h <;> simp [generatorKeys, h], h⟩
      have hb : (p :: rest).filter (fun q => q == 5 || q == 6 || q == 7)
          = p :: rest.filter (fun q => q == 5 || q == 6 || q == 7) := by
        rw [List.filter_cons]
        rcases h with h | h | h <;> simp [h]
      rw [hb]
      have hblk : ((if p = 7 then genPart7 perPart r p7len diff gre dom
          else if p = 6 then genPart6 perPart r diff gre dom
          else genPart5 perPart r diff gre dom)).1.part = p := by
        rcases h with h | h | h <;> subst h <;> simp [genPart5_part, genPart6_part, genPart7_part]
      have hstep : (buildPartsLoop perPart p7len diff gre dom (p :: rest) r).1
          = ((if p = 7 then genPart7 perPart r p7len diff gre dom
              else if p = 6 then genPart6 perPart r diff gre dom
              else genPart5 perPart r diff gre dom)).1
            :: (buildPartsLoop perPart p7len diff gre dom rest
                ((if p = 7 then genPart7 perPart r p7len diff gre dom
                  else if p = 6 then genPart6 perPart r diff gre dom
                  else genPart5 perPart r diff gre dom)).2).1 := by
        simp only [buildPartsLoop, if_pos hg]
      rw [hstep, List.map_cons, hblk, ih]
    · have hg : ¬ (p ∈ generatorKeys ∧ (p = 5 ∨ p = 6 ∨ p = 7)) := by
        intro hc
        exact h hc.2
      have hb : (p :: rest).filter (fun q => q == 5 || q == 6 || q == 7)
          = rest.filter (fun q => q == 5 || q == 6 || q == 7) := by
        rw [List.filter_cons]
        have h5 : ¬ p = 5 := fun hx => h (Or.inl hx)
        have h6 : ¬ p = 6 := fun hx => h (Or.inr (Or.inl hx))
        have h7 : ¬ p = 7 := fun hx => h (Or.inr (Or.inr hx))
        simp [h5, h6, h7]
      have hstep : (buildPartsLoop perPart p7len diff gre dom (p :: rest) r).1
          = (buildPartsLoop perPart p7len diff gre dom rest r).1 := by
        simp only [buildPartsLoop, if_neg hg]
      rw [hstep, hb, ih]

theorem generateDataset_parts (t title : String) (perPart : Nat)
    (parts : Option (List Int)) (seed : Int) (p7l diff gre dom : Option String) :
    (generateDataset t title perPart parts seed p7l diff gre dom).parts
      = (buildPartsLoop perPart
          (match p7l with
           | none => "short"
           | some s => if s = "" then "short" else s)
          diff gre dom (effectiveParts parts) (rngOfSeed seed)).1 := rfl

/-- C7: `generate_dataset` emits one block per requested part number that
lies in `{5, 6, 7}`, in request order — any other requested number (such as
2) is silently skipped by the `gen and p in (5, 6, 7)` guard, without
raising — and with the default part list the emitted parts are exactly
5, 6, 7, so no Part 1–4 block is ever emitted. -/
theorem claim_C7_supported_parts (t title : String) (perPart : Nat) (l : List Int)
    (seed : Int) (p7l diff gre dom : Option String) :
    ((generateDataset t title perPart (some l) seed p7l diff gre dom).parts.map PartBlock.part
        = (effectiveParts (some l)).filter (fun p => p == 5 || p == 6 || p == 7)) ∧
    ((generateDataset t title perPart none seed p7l diff gre dom).parts.map PartBlock.part
        = [5, 6, 7]) := by
  constructor
  · rw [generateDataset_parts, buildPartsLoop_parts]
  · rw [generateDataset_parts, buildPartsLoop_parts]
    decide

/-- C6: `gen_part5` keeps exactly 24 distinct archetypes in its full pool;
for difficulty `"hard"` it draws from a restricted pool of exactly 8
archetypes, all members of the full pool; for any other difficulty it draws
from the full pool, each question's archetype coming from `random.choice`
over that pool with every archetype reachable. -/
theorem claim_C6_p5_pools (difficulty : Option String) (r : RNG) :
    p5FullPool.length = 24 ∧ p5FullPool.Nodup ∧
    p5HardPool.length = 8 ∧ p5HardPool.Nodup ∧
    (∀ a ∈ p5HardPool, a ∈ p5FullPool) ∧
    p5Pool (some "hard") = p5HardPool ∧
    (difficulty ≠ some "hard" → p5Pool difficulty = p5FullPool) ∧
    (choice (p5Pool difficulty) P5Arch.p5_preposition r).1 ∈ p5Pool difficulty ∧
    (∀ a ∈ p5FullPool, ∃ r' : RNG, (choice p5FullPool P5Arch.p5_preposition r').1 = a) := by
  refine ⟨by decide, by decide, by decide, by decide, by decide, rfl, ?_, ?_, ?_⟩
  · intro h
    simp [p5Pool, h]
  · apply choice_mem
    unfold p5Pool
    split <;> decide
  · intro a ha
    obtain ⟨i, hi, hx⟩ := List.getElem_of_mem ha
    refine ⟨⟨fun _ => i, 0⟩, ?_⟩
    simp only [choice, randbelow, RNG.next]
    rw [Nat.mod_eq_of_lt hi]
    rw [List.getD_eq_getElem?_getD, List.getElem?_eq_getElem hi, hx]
    rfl

/-- Witness for C6 at a non-hard difficulty and a concrete generator. -/
theorem claim_C6_p5_pools_witness :
    p5FullPool.length = 24 ∧ p5FullPool.Nodup ∧
    p5HardPool.length = 8 ∧ p5HardPool.Nodup ∧
    (∀ a ∈ p5HardPool, a ∈ p5FullPool) ∧
    p5Pool (some "hard") = p5HardPool ∧
    ((none : Option String) ≠ some "hard" → p5Pool none = p5FullPool) ∧
    (choice (p5Pool none) P5Arch.p5_preposition natStream).1 ∈ p5Pool none ∧
    (∀ a ∈ p5FullPool, ∃ r' : RNG, (choice p5FullPool P5Arch.p5_preposition r').1 = a) :=
  claim_C6_p5_pools none natStream

theorem heapGet_append_new (h : Heap) (x : List PartBlock) :
    heapGet (h ++ [x]) h.length = x := by
  unfold heapGet
  rw [List.getD_eq_getElem?_getD, List.getElem?_append_right (Nat.le_refl _)]
  simp

theorem heapGet_append_old (h : Heap) (x : List PartBlock) (a : Nat)
    (ha : a < h.length) : heapGet (h ++ [x]) a = heapGet h a := by
  unfold heapGet
  rw [List.getD_eq_getElem?_getD, List.getElem?_append_left ha,
    List.getD_eq_getElem?_getD]

/-- C4: `filter_reading_only` returns a record whose parts list is exactly
the blocks with part number ≥ 5, in original order, while the original
dataset's parts list — and every other live list object — is left untouched
(copy-on-filter, no aliasing side effect), and the copied envelope fields are
unchanged. -/
theorem claim_C4_filter_reading_only (h : Heap) (d : DatasetRef)
    (hv : d.partsRef < h.length) :
    heapGet (filterReadingOnly h d).1 (filterReadingOnly h d).2.partsRef
        = (heapGet h d.partsRef).filter (fun p => 5 ≤ p.part) ∧
    heapGet (filterReadingOnly h d).1 d.partsRef = heapGet h d.partsRef ∧
    (∀ a, a < h.length → heapGet (filterReadingOnly h d).1 a = heapGet h a) ∧
    (filterReadingOnly h d).2.title = d.title ∧
    (filterReadingOnly h d).2.version = d.version ∧
    (filterReadingOnly h d).2.language = d.language ∧
    (filterReadingOnly h d).2.explanationsLanguage = d.explanationsLanguage ∧
    (filterReadingOnly h d).2.createdAt = d.createdAt ∧
    (filterReadingOnly h d).2.metadataNoteJa = d.metadataNoteJa := by
  refine ⟨?_, ?_, ?_, rfl, rfl, rfl, rfl, rfl, rfl⟩
  · have href : (filterReadingOnly h d).2.partsRef = h.length := rfl
    have hheap : (filterReadingOnly h d).1
        = h ++ [(heapGet h d.partsRef).filter (fun p => 5 ≤ p.part)] := rfl
    rw [href, hheap, heapGet_append_new]
  · exact heapGet_append_old h _ d.partsRef hv
  · intro a ha
    exact heapGet_append_old h _ a ha

/-- Witness for C4: a heap holding one parts list with a Part 5 and a Part 2
block behind reference 0. -/
theorem claim_C4_filter_reading_only_witness :
    (0 < ([[{ part := 5, name := "Incomplete Sentences", instructions := "", questions := [] },
             { part := 2, name := "Question-Response", instructions := "", questions := [] }]] : Heap).length) ∧
    (heapGet (filterReadingOnly
        [[{ part := 5, name := "Incomplete Sentences", instructions := "", questions := [] },
          { part := 2, name := "Question-Response", instructions := "", questions := [] }]]
        { title := "t", version := "1.0.0", language := "en", explanationsLanguage := "ja",
          createdAt := "", partsRef := 0, metadataNoteJa := "" }).1
      (filterReadingOnly
        [[{ part := 5, name := "Incomplete Sentences", instructions := "", questions := [] },
          { part := 2, name := "Question-Response", instructions := "", questions := [] }]]
        { title := "t", version := "1.0.0", language := "en", explanationsLanguage := "ja",
          createdAt := "", partsRef := 0, metadataNoteJa := "" }).2.partsRef
        = (heapGet
            [[{ part := 5, name := "Incomplete Sentences", instructions := "", questions := [] },
              { part := 2, name := "Question-Response", instructions := "", questions := [] }]] 0).filter
            (fun p => 5 ≤ p.part) ∧
      heapGet (filterReadingOnly
        [[{ part := 5, name := "Incomplete Sentences", instructions := "", questions := [] },
          { part := 2, name := "Question-Response", instructions := "", questions := [] }]]
        { title := "t", version := "1.0.0", language := "en", explanationsLanguage := "ja",
          createdAt := "", partsRef := 0, metadataNoteJa := "" }).1 0
        = heapGet
            [[{ part := 5, name := "Incomplete Sentences", instructions := "", questions := [] },
              { part := 2, name := "Question-Response", instructions := "", questions := [] }]] 0 ∧
      (∀ a, a < ([[{ part := 5, name := "Incomplete Sentences", instructions := "", questions := [] },
                    { part := 2, name := "Question-Response", instructions := "", questions := [] }]] : Heap).length →
        heapGet (filterReadingOnly
          [[{ part := 5, name := "Incomplete Sentences", instructions := "", questions := [] },
            { part := 2, name := "Question-Response", instructions := "", questions := [] }]]
          { title := "t", version := "1.0.0", language := "en", explanationsLanguage := "ja",
            createdAt := "", partsRef := 0, metadataNoteJa := "" }).1 a
          = heapGet
              [[{ part := 5, name := "Incomplete Sentences", instructions := "", questions := [] },
                { part := 2, name := "Question-Response", instructions := "", questions := [] }]] a) ∧
      (filterReadingOnly
        [[{ part := 5, name := "Incomplete Sentences", instructions := "", questions := [] },
          { part := 2, name := "Question-Response", instructions := "", questions := [] }]]
        { title := "t", version := "1.0.0", language := "en", explanationsLanguage := "ja",
          createdAt := "", partsRef := 0, metadataNoteJa := "" }).2.title = "t" ∧
      (filterReadingOnly
        [[{ part := 5, name := "Incomplete Sentences", instructions := "", questions := [] },
          { part := 2, name := "Question-Response", instructions := "", questions := [] }]]
        { title := "t", version := "1.0.0", language := "en", explanationsLanguage := "ja",
          createdAt := "", partsRef := 0, metadataNoteJa := "" }).2.version = "1.0.0" ∧
      (filterReadingOnly
        [[{ part := 5, name := "Incomplete Sentences", instructions := "", questions := [] },
          { part := 2, name := "Question-Response", instructions := "", questions := [] }]]
        { title := "t", version := "1.0.0", language := "en", explanationsLanguage := "ja",
          createdAt := "", partsRef := 0, metadataNoteJa := "" }).2.language = "en" ∧
      (filterReadingOnly
        [[{ part := 5, name := "Incomplete Sentences", instructions := "", questions := [] },
          { part := 2, name := "Question-Response", instructions := "", questions := [] }]]
        { title := "t", version := "1.0.0", language := "en", explanationsLanguage := "ja",
          createdAt := "", partsRef := 0, metadataNoteJa := "" }).2.explanationsLanguage = "ja" ∧
      (filterReadingOnly
        [[{ part := 5, name := "Incomplete Sentences", instructions := "", questions := [] },
          { part := 2, name := "Question-Response", instructions := "", questions := [] }]]
        { title := "t", version := "1.0.0", language := "en", explanationsLanguage := "ja",
          createdAt := "", partsRef := 0, metadataNoteJa := "" }).2.createdAt = "" ∧
      (filterReadingOnly
        [[{ part := 5, name := "Incomplete Sentences", instructions := "", questions := [] },
          { part := 2, name := "Question-Response", instructions := "", questions := [] }]]
        { title := "t", version := "1.0.0", language := "en", explanationsLanguage := "ja",
          createdAt := "", partsRef := 0, metadataNoteJa := "" }).2.metadataNoteJa = "") :=
  ⟨by decide,
   claim_C4_filter_reading_only
     [[{ part := 5, name := "Incomplete Sentences", instructions := "", questions := [] },
       { part := 2, name := "Question-Response", instructions := "", questions := [] }]]
     { title := "t", version := "1.0.0", language := "en", explanationsLanguage := "ja",
       createdAt := "", partsRef := 0, metadataNoteJa := "" }
     (by decide)⟩

theorem submitStep_bound (qs : List Question) (st : QuizState) (c : Option Char) :
    scoreBound (submitStep qs st c) ≤ scoreBound st := by
  unfold submitStep
  cases hos : onSubmit qs st c with
  | none => simp
  | some s' =>
    simp only [Option.getD_some]
    unfold onSubmit at hos
    by_cases hq : qs = []
    · rw [if_pos hq] at hos
      exact absurd hos (by simp)
    · rw [if_neg hq] at hos
      by_cases hans : st.answered = true
      · rw [if_pos hans] at hos
        exact absurd hos (by simp)
      · rw [if_neg hans] at hos
        cases c with
        | none => exact absurd hos (by simp)
        | some ch =>
          have hs' : s' = ⟨st.index,
              st.score + (if ch = (qs.getD st.index defaultQuestion).answer then 1 else 0),
              true⟩ := by
            have := Option.some.inj hos
            exact this.symm
          subst hs'
          unfold scoreBound
          have hb : st.answered = false := by
            cases h : st.answered
            · rfl
            · exact absurd h hans
          rw [hb]
          have e1 : (if (true : Bool) then (0 : Nat) else 1) = 0 := rfl
          have e2 : (if (false : Bool) then (0 : Nat) else 1) = 1 := rfl
          rw [e1, e2]
          dsimp only
          split <;> omega

theorem foldl_scoreBound (qs : List Question) (events : List (Option Char)) :
    ∀ st : QuizState, scoreBound (events.foldl (submitStep qs) st) ≤ scoreBound st := by
  induction events with
  | nil => intro st; exact Nat.le_refl _
  | cons e es ih =>
    intro st
    have h1 : (e :: es).foldl (submitStep qs) st = es.foldl (submitStep qs) (submitStep qs st e) :=
      rfl
    rw [h1]
    exact Nat.le_trans (ih (submitStep qs st e)) (submitStep_bound qs st e)

/-- C9: the submit handler leaves the state unchanged when the question is
already answered or no choice is selected; otherwise it marks the question
answered at the same index and adds 1 to the score exactly when the chosen
letter equals the question's answer; across any sequence of submit events the
score grows by at most 1 (the single question of the Dash app is scored at
most once); restart (with a loaded dataset) and load reset to `(0, 0, false)`. -/
theorem claim_C9_submit_state (qs : List Question) (st : QuizState) (c : Option Char)
    (ch : Char) (events : List (Option Char)) :
    (st.answered = true → onSubmit qs st c = none) ∧
    (onSubmit qs st none = none) ∧
    (qs ≠ [] → st.answered = false → st.index < qs.length →
      onSubmit qs st (some ch)
        = some ⟨st.index,
            st.score + (if ch = (qs.getD st.index defaultQuestion).answer then 1 else 0),
            true⟩) ∧
    ((events.foldl (submitStep qs) st).score
        ≤ st.score + (if st.answered then 0 else 1)) ∧
    (qs ≠ [] → onRestart qs = some initQuizState) ∧
    (onLoadState = ⟨0, 0, false⟩) := by
  refine ⟨?_, ?_, ?_, ?_, ?_, rfl⟩
  · intro ha
    unfold onSubmit
    by_cases hq : qs = []
    · rw [if_pos hq]
    · rw [if_neg hq, if_pos ha]
  · unfold onSubmit
    by_cases hq : qs = []
    · rw [if_pos hq]
    · rw [if_neg hq]
      by_cases hans : st.answered = true
      · rw [if_pos hans]
      · rw [if_neg hans]
  · intro hq hans _
    unfold onSubmit
    rw [if_neg hq, if_neg (by rw [hans]; exact Bool.false_ne_true)]
  · have h1 := foldl_scoreBound qs events st
    have h2 : (events.foldl (submitStep qs) st).score
        ≤ scoreBound (events.foldl (submitStep qs) st) := by
      unfold scoreBound
      split <;> omega
    have h3 : scoreBound st = st.score + (if st.answered then 0 else 1) := rfl
    rw [← h3]
    exact Nat.le_trans h2 h1
  · intro hq
    unfold onRestart
    rw [if_neg hq]

/-- Witness for C9: one loaded question, a fresh session, a correct choice,
and two successive submit events. -/
theorem claim_C9_submit_state_witness :
    (initQuizState.answered = true →
      onSubmit [{ id := "Q1", options := ["A. submit"], answer := 'A', explanationJa := "" }]
        initQuizState (some 'A') = none) ∧
    (onSubmit [{ id := "Q1", options := ["A. submit"], answer := 'A', explanationJa := "" }]
        initQuizState none = none) ∧
    (([{ id := "Q1", options := ["A. submit"], answer := 'A', explanationJa := "" }] : List Question) ≠ [] →
      initQuizState.answered = false →
      initQuizState.index
          < ([{ id := "Q1", options := ["A. submit"], answer := 'A', explanationJa := "" }] : List Question).length →
      onSubmit [{ id := "Q1", options := ["A. submit"], answer := 'A', explanationJa := "" }]
          initQuizState (some 'A')
        = some ⟨initQuizState.index,
            initQuizState.score +
              (if 'A' = (([{ id := "Q1", options := ["A. submit"], answer := 'A', explanationJa := "" }] : List Question).getD
                  initQuizState.index defaultQuestion).answer then 1 else 0),
            true⟩) ∧
    (([some 'A', some 'A'].foldl
        (submitStep [{ id := "Q1", options := ["A. submit"], answer := 'A', explanationJa := "" }])
        initQuizState).score
      ≤ initQuizState.score + (if initQuizState.answered then 0 else 1)) ∧
    (([{ id := "Q1", options := ["A. submit"], answer := 'A', explanationJa := "" }] : List Question) ≠ [] →
      onRestart [{ id := "Q1", options := ["A. submit"], answer := 'A', explanationJa := "" }]
        = some initQuizState) ∧
    (onLoadState = ⟨0, 0, false⟩) :=
  claim_C9_submit_state
    [{ id := "Q1", options := ["A. submit"], answer := 'A', explanationJa := "" }]
    initQuizState (some 'A') 'A' [some 'A', some 'A']

theorem p7ShortBank_ne_nil (dom : Option String) : p7ShortBank dom ≠ [] := by
  unfold p7ShortBank
  exact List.cons_ne_nil _ _

/-- C5: in `gen_part7`'s short branch, a recognised genre hint filters the
bank on the genre's label: when the filtered subset is non-empty the chosen
entry's passage starts with that label; when it is empty the entry is drawn
from the full bank instead. -/
theorem claim_C5_p7_genre_filter (g label : String)
    (hm : p7GenreLabel.lookup g = some label) (dom : Option String) (r : RNG) :
    ((p7ShortBank dom).filter (fun b => strStartsWith b.passage label) ≠ [] →
      strStartsWith ((p7PickShort (some g) (p7ShortBank dom) r).1).passage label = true) ∧
    ((p7ShortBank dom).filter (fun b => strStartsWith b.passage label) = [] →
      (p7PickShort (some g) (p7ShortBank dom) r).1 ∈ p7ShortBank dom) := by
  have hdef : p7PickShort (some g) (p7ShortBank dom) r
      = (if (p7ShortBank dom).filter (fun b => strStartsWith b.passage label) = []
         then choice (p7ShortBank dom) p7Default r
         else choice ((p7ShortBank dom).filter (fun b => strStartsWith b.passage label))
           p7Default r) := by
    unfold p7PickShort
    dsimp only
    rw [hm]
  constructor
  · intro hne
    rw [hdef, if_neg hne]
    have hmem := choice_mem _ p7Default r hne
    exact (List.mem_filter.mp hmem).2
  · intro he
    rw [hdef, if_pos he]
    exact choice_mem _ _ r (p7ShortBank_ne_nil dom)

/-- Witness for C5 at genre `"faq"` (its filtered subset is non-empty). -/
theorem claim_C5_p7_genre_filter_witness :
    (p7GenreLabel.lookup "faq" = some "FAQ:") ∧
    (((p7ShortBank none).filter (fun b => strStartsWith b.passage "FAQ:") ≠ [] →
        strStartsWith ((p7PickShort (some "faq") (p7ShortBank none) natStream).1).passage "FAQ:"
          = true) ∧
      ((p7ShortBank none).filter (fun b => strStartsWith b.passage "FAQ:") = [] →
        (p7PickShort (some "faq") (p7ShortBank none) natStream).1 ∈ p7ShortBank none)) :=
  ⟨by decide, claim_C5_p7_genre_filter "faq" "FAQ:" (by decide) none natStream⟩

theorem lookup_mem_snd {α β : Type} [BEq α] (k : α) (v : β) :
    ∀ l : List (α × β), l.lookup k = some v → v ∈ l.map Prod.snd := by
  intro l
  induction l with
  | nil => intro h; simp [List.lookup] at h
  | cons kv rest ih =>
    intro h
    rcases kv with ⟨a, b⟩
    rw [List.lookup] at h
    cases hk : (k == a) with
    | true =>
      rw [hk] at h
      simp at h
      simp [h]
    | false =>
      rw [hk] at h
      exact List.mem_cons_of_mem _ (ih h)

theorem domainLex_mem (dom : Option String) : domainLex dom ∈ allLexica := by
  unfold domainLex allLexica
  dsimp only
  cases h : lexTable.lookup (strLower (dom.getD "")) with
  | none => exact List.mem_cons_self _ _
  | some lex => exact List.mem_cons_of_mem _ (lookup_mem_snd _ _ lexTable h)

theorem allLexica_nouns_no3 : ∀ L ∈ allLexica, ∀ n ∈ L.nouns, '3' ∉ n.data := by
  decide

theorem pmNouns_no3 (dom : Option String) :
    '3' ∉ ((domainLex dom).nouns.headD "forms").data ∧
    '3' ∉ ((domainLex dom).nouns.getD 1 "reports").data := by
  have hall := allLexica_nouns_no3 (domainLex dom) (domainLex_mem dom)
  constructor
  · cases hn : (domainLex dom).nouns with
    | nil => decide
    | cons x xs =>
      have : x ∈ (domainLex dom).nouns := by rw [hn]; exact List.mem_cons_self _ _
      simpa [hn] using hall x this
  · by_cases h1 : 1 < (domainLex dom).nouns.length
    · exact hall _ (getD_mem_of_lt _ 1 "reports" h1)
    · have he : (domainLex dom).nouns.getD 1 "reports" = "reports" := by
        rw [List.getD_eq_getElem?_getD, List.getElem?_eq_none (by omega)]
        rfl
      rw [he]
      decide

theorem infix_extend_right {α : Type} {l x : List α} (y : List α) (h : l <:+: x) :
    l <:+: x ++ y :=
  h.trans (List.prefix_append x y).isInfix

theorem infix_extend_left {α : Type} {l y : List α} (x : List α) (h : l <:+: y) :
    l <:+: x ++ y :=
  h.trans (List.suffix_append x y).isInfix

theorem strContains_of_infix {s sub : String} (h : sub.data <:+: s.data) :
    strContains s sub = true :=
  decide_eq_true h

theorem strContains_false_of_not_infix {s sub : String} (h : ¬ sub.data <:+: s.data) :
    strContains s sub = false :=
  decide_eq_false h

theorem pmText_marker1 (blanks : Nat) (n1 n2 : String) :
    strContains (paragraphMultiText blanks n1 n2) blankMarker1 = true := by
  apply strContains_of_infix
  have hbase : blankMarker1.data
      <:+: ("To all staff, \nWe are updating procedures this month to improve efficiency. ").data
            ++ ("Please 【_____1】 the ").data := by decide
  unfold paragraphMultiText
  dsimp only
  split
  · simp only [String.data_append]
    exact infix_extend_right _ (infix_extend_right _ (infix_extend_right _
      (infix_extend_right _ (infix_extend_right _ hbase))))
  · simp only [String.data_append]
    exact infix_extend_right _ (infix_extend_right _ (infix_extend_right _
      (infix_extend_right _ hbase)))

theorem pmText_marker2 (blanks : Nat) (n1 n2 : String) :
    strContains (paragraphMultiText blanks n1 n2) blankMarker2 = true := by
  apply strContains_of_infix
  have hbase : blankMarker2.data <:+: (" and 【_____2】 the ").data := by decide
  unfold paragraphMultiText
  dsimp only
  split
  · simp only [String.data_append]
    exact infix_extend_right _ (infix_extend_right _ (infix_extend_right _
      (infix_extend_left _ hbase)))
  · simp only [String.data_append]
    exact infix_extend_right _ (infix_extend_right _ (infix_extend_left _ hbase))

theorem pmText_marker3_pos (n1 n2 : String) :
    strContains (paragraphMultiText 3 n1 n2) blankMarker3 = true := by
  apply strContains_of_infix
  have hbase : blankMarker3.data
      <:+: ("We also ask you to 【_____3】 with your team to avoid delays.").data := by decide
  have heq : paragraphMultiText 3 n1 n2
      = ("To all staff, \nWe are updating procedures this month to improve efficiency. "
          ++ "Please 【_____1】 the " ++ n1 ++ " and 【_____2】 the " ++ n2 ++ " by Friday. ")
        ++ "We also ask you to 【_____3】 with your team to avoid delays." := rfl
  rw [heq]
  simp only [String.data_append]
  exact infix_extend_left _ hbase

theorem pmText_marker3_neg (n1 n2 : String) (h1 : '3' ∉ n1.data) (h2 : '3' ∉ n2.data) :
    strContains (paragraphMultiText 2 n1 n2) blankMarker3 = false := by
  apply strContains_false_of_not_infix
  intro hinf
  have h3 : '3' ∈ blankMarker3.data := by decide
  have hmem := hinf.sublist.subset h3
  have heq : paragraphMultiText 2 n1 n2
      = "To all staff, \nWe are updating procedures this month to improve efficiency. "
          ++ "Please 【_____1】 the " ++ n1 ++ " and 【_____2】 the " ++ n2 ++ " by Friday. " := rfl
  rw [heq] at hmem
  simp only [String.data_append, List.mem_append] at hmem
  rcases hmem with ((((hA | hB) | hC) | hD') | hE) | hF
  · exact absurd hA (by decide)
  · exact absurd hB (by decide)
  · exact h1 hC
  · exact absurd hD' (by decide)
  · exact h2 hE
  · exact absurd hF (by decide)

theorem countMarkers_pm2 (n1 n2 : String) (h1 : '3' ∉ n1.data) (h2 : '3' ∉ n2.data) :
    countMarkers (paragraphMultiText 2 n1 n2) = 2 := by
  unfold countMarkers
  rw [pmText_marker1, pmText_marker2, pmText_marker3_neg n1 n2 h1 h2]
  rfl

theorem countMarkers_pm3 (n1 n2 : String) :
    countMarkers (paragraphMultiText 3 n1 n2) = 3 := by
  unfold countMarkers
  rw [pmText_marker1, pmText_marker2, pmText_marker3_pos]
  rfl

set_option maxHeartbeats 2000000 in
theorem p6Question_pm (dom : Option String) (i : Nat) (r : RNG) :
    p6Question dom i P6Pattern.paragraph_multi r
      = ({ id := "G-P6-Q" ++ toString (i + 1),
           stem := none,
           context := some
             { text := some (paragraphMultiRun dom r).1.stem
               passage := none
               multiBlanks := true
               blankCount := pmBlanksOf dom r
               blankIndex := 0
               blankOptionsLabeled := [(pmOuter dom r).1.1, (pmSecond dom r).1.1]
                 ++ (if pmBlanksOf dom r = 3 then [(pmThird dom r).1.1] else [])
               blankAnswerLetters := [(pmOuter dom r).1.2, (pmSecond dom r).1.2]
                 ++ (if pmBlanksOf dom r = 3 then [(pmThird dom r).1.2] else [])
               blankNotes := [(paragraphMultiRun dom r).1.note, pmNote2]
                 ++ (if pmBlanksOf dom r = 3 then [pmNote3] else [])
               groupId := some ("P6-" ++ toString (pmGroup dom r).1) },
           options := (pmOuter dom r).1.1,
           answer := (pmOuter dom r).1.2,
           explanationJa := (paragraphMultiRun dom r).1.note },
         (pmGroup dom r).2) := rfl

theorem paragraphMultiRun_stem (dom : Option String) (r : RNG) :
    (paragraphMultiRun dom r).1.stem
      = paragraphMultiText (choice [2, 3] 0 r).1 ((domainLex dom).nouns.headD "forms")
          ((domainLex dom).nouns.getD 1 "reports") := rfl

theorem pm_choice_two_or_three (r : RNG) :
    (choice [2, 3] 0 r).1 = 2 ∨ (choice [2, 3] 0 r).1 = 3 := by
  have h : (choice [2, 3] 0 r).1 = [2, 3].getD (r.stream r.pos % 2) 0 := rfl
  rcases Nat.mod_two_eq_zero_or_one (r.stream r.pos) with hm | hm
  · left; rw [h, hm]; rfl
  · right; rw [h, hm]; rfl

theorem pmBlanksOf_eq_countMarkers (dom : Option String) (r : RNG) :
    pmBlanksOf dom r = countMarkers (paragraphMultiRun dom r).1.stem := by
  obtain ⟨hb1, hb2⟩ := pmNouns_no3 dom
  have hstem := paragraphMultiRun_stem dom r
  rcases pm_choice_two_or_three r with hv | hv
  · have hcont : strContains (paragraphMultiRun dom r).1.stem blankMarker3 = false := by
      rw [hstem, hv]
      exact pmText_marker3_neg _ _ hb1 hb2
    have hB : pmBlanksOf dom r = 2 := by
      unfold pmBlanksOf
      rw [hcont]
      rfl
    have hcm : countMarkers (paragraphMultiRun dom r).1.stem = 2 := by
      rw [hstem, hv]
      exact countMarkers_pm2 _ _ hb1 hb2
    rw [hB, hcm]
  · have hB : pmBlanksOf dom r = 3 := by
      unfold pmBlanksOf
      rw [hstem, hv, pmText_marker3_pos]
      rfl
    have hcm : countMarkers (paragraphMultiRun dom r).1.stem = 3 := by
      rw [hstem, hv]
      exact countMarkers_pm3 _ _
    rw [hB, hcm]

theorem pmBlanksOf_two_or_three (dom : Option String) (r : RNG) :
    pmBlanksOf dom r = 2 ∨ pmBlanksOf dom r = 3 := by
  unfold pmBlanksOf
  cases strContains (paragraphMultiRun dom r).1.stem blankMarker3
  · left; rfl
  · right; rfl

theorem pm_append_len {γ : Type} (x y z : γ) (dom : Option String) (r : RNG) :
    (([x, y] : List γ) ++ (if pmBlanksOf dom r = 3 then [z] else [])).length
      = pmBlanksOf dom r := by
  rcases pmBlanksOf_two_or_three dom r with h | h <;> rw [h] <;> simp

set_option maxHeartbeats 1000000 in
/-- C3: every Part 6 question generated from the `paragraph_multi` archetype
carries a context whose `blankCount` equals the number of numbered blank
markers actually present in the context text, with `blankOptionsLabeled`,
`blankAnswerLetters` and `blankNotes` each of length `blankCount`. -/
theorem claim_C3_paragraph_multi (dom : Option String) (i : Nat) (r : RNG) :
    ∃ ctx : Ctx, (p6Question dom i P6Pattern.paragraph_multi r).1.context = some ctx ∧
      ∃ t : String, ctx.text = some t ∧
        ctx.blankCount = countMarkers t ∧
        ctx.blankOptionsLabeled.length = ctx.blankCount ∧
        ctx.blankAnswerLetters.length = ctx.blankCount ∧
        ctx.blankNotes.length = ctx.blankCount := by
  refine ⟨{ text := some (paragraphMultiRun dom r).1.stem
            passage := none
            multiBlanks := true
            blankCount := pmBlanksOf dom r
            blankIndex := 0
            blankOptionsLabeled := [(pmOuter dom r).1.1, (pmSecond dom r).1.1]
              ++ (if pmBlanksOf dom r = 3 then [(pmThird dom r).1.1] else [])
            blankAnswerLetters := [(pmOuter dom r).1.2, (pmSecond dom r).1.2]
              ++ (if pmBlanksOf dom r = 3 then [(pmThird dom r).1.2] else [])
            blankNotes := [(paragraphMultiRun dom r).1.note, pmNote2]
              ++ (if pmBlanksOf dom r = 3 then [pmNote3] else [])
            groupId := some ("P6-" ++ toString (pmGroup dom r).1) },
          ?_, (paragraphMultiRun dom r).1.stem, rfl, ?_, ?_, ?_, ?_⟩
  · rw [p6Question_pm]
  · exact pmBlanksOf_eq_countMarkers dom r
  · exact pm_append_len _ _ _ dom r
  · exact pm_append_len _ _ _ dom r
  · exact pm_append_len _ _ _ dom r

theorem labelOptions_getD_structure (opts : List String) (c : Nat) (r : RNG)
    (p : Nat) (hp : p < opts.length) :
    ∃ j, j < opts.length ∧
      (labelOptions opts c r).1.1.getD p "" = labelStr (letterOfIdx p) (opts.getD j "") := by
  have hp' : p < (shuffle (List.range opts.length) r).1.length := by
    rw [labelOptions_idxs_length]; omega
  refine ⟨(shuffle (List.range opts.length) r).1.getD p 0, ?_, ?_⟩
  · have hjmem : (shuffle (List.range opts.length) r).1.getD p 0
        ∈ (shuffle (List.range opts.length) r).1 := getD_mem_of_lt _ p 0 hp'
    exact List.mem_range.mp ((shuffle_perm (List.range opts.length) r).mem_iff.mp hjmem)
  · rw [labelOptions_fst_fst, buildLabeled_getD _ _ 0 p hp']
    simp

theorem letterOfIdx_toNat_sub (p : Nat) (hp : p < 4) : (letterOfIdx p).toNat - 65 = p := by
  interval_cases p <;> decide

theorem letterOfIdx_mem_letterList (p : Nat) (hp : p < 4) : letterOfIdx p ∈ letterList := by
  interval_cases p <;> decide

theorem paragraphMultiRun_opts (dom : Option String) (r : RNG) :
    (paragraphMultiRun dom r).1.opts
      = (labelOptions pmBlank1Opts 0 (choice [2, 3] 0 r).2).1.1 := rfl

theorem paragraphMultiRun_correctIdx (dom : Option String) (r : RNG) :
    (paragraphMultiRun dom r).1.correctIdx
      = ((labelOptions pmBlank1Opts 0 (choice [2, 3] 0 r).2).1.2).toNat - 65 := rfl

set_option maxHeartbeats 1000000 in
/-- C10: on the `paragraph_multi` branch of `gen_part6` the top-level
options list (also stored as `blankOptionsLabeled[0]`) is produced by
applying `_label_options` to blank 1's already-labeled option set, so every
option string carries two letter prefixes `L. M. w` with `L`, `M` in A–D and
`w` one of blank 1's plain options; the question's answer letter marks the
option whose trailing plain word is `"submit"`, blank 1's correct choice. -/
theorem claim_C10_double_label (dom : Option String) (i : Nat) (r : RNG) :
    (∀ s ∈ (p6Question dom i P6Pattern.paragraph_multi r).1.options,
      ∃ L M w, L ∈ letterList ∧ M ∈ letterList ∧ w ∈ pmBlank1Opts ∧
        s = labelStr L (labelStr M w)) ∧
    (∃ p, p < (p6Question dom i P6Pattern.paragraph_multi r).1.options.length ∧
      ∃ M, M ∈ letterList ∧
        (p6Question dom i P6Pattern.paragraph_multi r).1.options.getD p ""
          = labelStr ((p6Question dom i P6Pattern.paragraph_multi r).1.answer)
              (labelStr M "submit") ∧
        leadingChar ((p6Question dom i P6Pattern.paragraph_multi r).1.options.getD p "")
          = (p6Question dom i P6Pattern.paragraph_multi r).1.answer) := by
  have hopts := congrArg (fun q => q.1.options) (p6Question_pm dom i r)
  have hans := congrArg (fun q => q.1.answer) (p6Question_pm dom i r)
  dsimp only at hopts hans
  -- the inner (blank 1) labeling
  obtain ⟨p1, hp1, hget1, hans1⟩ :=
    labelOptions_answer pmBlank1Opts 0 (choice [2, 3] 0 r).2 (by decide)
  have hp14 : p1 < 4 := hp1
  -- rewrite the outer call into inner terms
  have hout : pmOuter dom r
      = labelOptions (labelOptions pmBlank1Opts 0 (choice [2, 3] 0 r).2).1.1 p1
          (paragraphMultiRun dom r).2 := by
    unfold pmOuter
    rw [paragraphMultiRun_opts, paragraphMultiRun_correctIdx, hans1,
      letterOfIdx_toNat_sub p1 hp14, List.map_id']
  have hinlen : (labelOptions pmBlank1Opts 0 (choice [2, 3] 0 r).2).1.1.length
      = pmBlank1Opts.length := labelOptions_length _ _ _
  constructor
  · intro s hs
    rw [hopts, hout] at hs
    obtain ⟨i2, j, hi2, hj, hs'⟩ := labelOptions_mem_structure _ _ _ s hs
    rw [hinlen] at hi2 hj
    obtain ⟨m, hm, hgd⟩ := labelOptions_getD_structure pmBlank1Opts 0 (choice [2, 3] 0 r).2 j hj
    refine ⟨letterOfIdx i2, letterOfIdx j, pmBlank1Opts.getD m "", ?_, ?_, ?_, ?_⟩
    · exact letterOfIdx_mem_letterList i2 hi2
    · exact letterOfIdx_mem_letterList j hj
    · exact getD_mem_of_lt _ m "" hm
    · rw [hs', hgd]
  · obtain ⟨p2, hp2, hget2, hans2⟩ :=
      labelOptions_answer (labelOptions pmBlank1Opts 0 (choice [2, 3] 0 r).2).1.1 p1
        (paragraphMultiRun dom r).2 (by rw [hinlen]; exact hp1)
    refine ⟨p2, ?_, letterOfIdx p1, letterOfIdx_mem_letterList p1 hp14, ?_, ?_⟩
    · rw [hopts, hout, labelOptions_length, hinlen]
      rw [hinlen] at hp2
      exact hp2
    · rw [hopts, hout, hget2, hans, hout, hans2, hget1]
      rfl
    · rw [hopts, hout, hget2, hans, hout, hans2]
      exact leadingChar_labelStr _ _
